import Mathlib

/-!
Verification development for the cr50 TPM2 endorsement subsystem
(`board/cr50/tpm2/endorsement.c`).

The C code is shallowly embedded as pure Lean functions.  Hardware and
collaborator interfaces that live outside this file's source (the key-ladder
engine registers, the flash driver, the dcrypto HMAC/X.509 primitives and the
TPM NV store) are modelled as an explicit environment `Env` of oracles, in the
shape the spec describes them ("consumed collaborator interfaces").  All
machine integers are `Nat` with explicit `% 2^32` (the target is 32-bit ARM;
`size_t` and `uint32_t` arithmetic wraps at 2^32) and memory bytes are reduced
`% 256` at each read.  Every externally visible action (register writes that
open/close flash windows, flash reads, NV defines/writes/commits, signature
verifications) is recorded in an event trace so that frame and ordering
properties can be stated.
-/

namespace Endorsement

/-! ## Constants from endorsement.c -/

def PRIMARY_SEED_SIZE : Nat := 32
def AES256_BLOCK_CIPHER_KEY_SIZE : Nat := 32
def EK_CERT_NV_START_INDEX : Nat := 0x01C00000
def RO_CERTS_START_ADDR : Nat := 0x43800
def RO_CERTS_REGION_SIZE : Nat := 0x0800
def CROS_PERSO_COMPONENT_TYPE_EPS : Nat := 128
def CROS_PERSO_COMPONENT_TYPE_RSA_CERT : Nat := 129
def CROS_PERSO_COMPONENT_TYPE_P256_CERT : Nat := 130
def K_CROS_FW_MAJOR_VERSION : Nat := 0
def k_cr50_max_fw_major_version : Nat := 254

/-- 2^32, the modulus of 32-bit `uint32_t` / `size_t` arithmetic on the cr50. -/
def U32 : Nat := 4294967296

/-! ## Event trace

Each constructor records one externally visible action of the code:
key-ladder register writes, flash-window register writes, flash reads,
NV-store operations and signature-verification calls. -/

inductive Ev where
  /-- `GREG32(KEYMGR, SHA_TRIG) = GC_KEYMGR_SHA_TRIG_TRIG_RESET_MASK` -/
  | shaReset
  /-- `GREG32(KEYMGR, SHA_ITOP) = 0` (clear completion status) -/
  | itopClear
  /-- `GREG32(KEYMGR, SHA_USE_CERT_INDEX) = ...` selecting derivation step `c` -/
  | certSelect (c : Nat)
  /-- `GREG32(KEYMGR, SHA_TRIG) = GC_KEYMGR_SHA_TRIG_TRIG_GO_MASK` -/
  | shaTrig
  /-- `flash_info_read_enable()` -/
  | infoEnable
  /-- `flash_info_read_disable()` -/
  | infoDisable
  /-- `flash_cert_region_enable()` -/
  | certRegionEnable
  /-- `flash_physical_info_read_word` for seed word `i` -/
  | flashRead (i : Nat)
  /-- `HierarchyStartup(SU_RESET)` -/
  | hierarchyStartup
  /-- `TPM2_NV_DefineSpace` at `index` with data size `size` -/
  | nvDefine (index : Nat) (size : Nat)
  /-- `TPM2_NV_Write` at `index` of bytes `data` -/
  | nvWrite (index : Nat) (data : List Nat)
  /-- `NvWriteReserved(NV_EP_SEED, ...)` of seed bytes `data` -/
  | nvWriteReserved (data : List Nat)
  /-- `NvCommit()`, the `n`-th commit of this endorsement attempt -/
  | nvCommit (n : Nat)
  /-- `DCRYPTO_x509_verify` against root `r` (0 = production, 1 = test) -/
  | verifyCall (r : Nat)
  /-- the cert-region HMAC comparison at the top of the do-while block -/
  | hmacCheck
  deriving DecidableEq, Repr

/-! ## Environment: hardware and collaborator oracles -/

/-- Modelled from the spec: the key-ladder engine registers, the flash
driver, the dcrypto HMAC-SHA256 / X.509 primitives and the TPM NV store are
outside `board/cr50/tpm2/endorsement.c` (the only source of this subsystem);
the spec lists them as consumed collaborator interfaces (§6), so they appear
here as unconstrained oracles. -/
structure Env where
  /-- `GREG32(KEYMGR, HKEY_ERR_FLAGS)` after the `n`-th executed ladder step:
  `true` means the hardware fault flag was raised. -/
  faults : Nat → Bool
  /-- bytes of `GREG32_ADDR(KEYMGR, HKEY_FRR0)`, the derived FRK2 key. -/
  frr0 : Nat → Nat
  /-- `flash_physical_info_read_word` for seed word `i` (offset
  `INFO1_EPS_OFFSET + 4*i`): `none` models a return other than `EC_SUCCESS`. -/
  flashWord : Nat → Option Nat
  /-- flash memory byte at absolute address `a` (the RO cert region starts at
  `RO_CERTS_START_ADDR`). -/
  mem : Nat → Nat
  /-- `DCRYPTO_x509_verify(cert, len, &PROD_ENDORSEMENT_CA_RSA_PUB)` on the
  given certificate bytes. -/
  verifyProd : List Nat → Bool
  /-- `DCRYPTO_x509_verify(cert, len, &TEST_ENDORSEMENT_CA_RSA_PUB)`. -/
  verifyTest : List Nat → Bool
  /-- whether `TPM2_NV_DefineSpace` at an NV index succeeds. -/
  defineOk : Nat → Bool
  /-- whether `TPM2_NV_Write` at an NV index succeeds. -/
  writeOk : Nat → Bool
  /-- whether the `n`-th `NvCommit()` of this attempt succeeds. -/
  commitOk : Nat → Bool
  /-- `MAX_NV_BUFFER_SIZE`, a TPM-library constant not in this file's source.
  Modelled from the spec: "the maximum supported NV buffer size". -/
  maxNvBufferSize : Nat
  /-- HMAC-SHA256 as `key → message → 32-byte tag`.  Modelled from the spec:
  the dcrypto implementation is outside this source; the spec specifies only
  the collaborator signature `HMAC-SHA256(key, data) -> 32 bytes`. -/
  hmac : List Nat → List Nat → List Nat

/-- Read a flash byte at a 32-bit address (pointer arithmetic wraps mod 2^32,
byte values are 8-bit). -/
def memByte (env : Env) (a : Nat) : Nat := env.mem (a % U32) % 256

/-- Byte `i` of the 2048-byte RO certificate region. -/
def regionByte (env : Env) (i : Nat) : Nat := memByte env (RO_CERTS_START_ADDR + i)

/-- Little-endian 32-bit value from four bytes. -/
def le32 (b0 b1 b2 b3 : Nat) : Nat := b0 + 256 * b1 + 65536 * b2 + 16777216 * b3

/-! ## Key ladder driver (`hw_key_ladder_step`, `compute_frk2`) -/

/-- `hw_key_ladder_step(cert)`: clears `SHA_ITOP`, selects the derivation
step, triggers the engine, busy-polls `SHA_ITOP` until completion (the poll
has no timeout; completion is assumed, as in the source), clears `SHA_ITOP`
again and returns `!!GREG32(KEYMGR, HKEY_ERR_FLAGS)`.  `n` is the position of
this step in the attempt, used to index the fault oracle. -/
def hw_key_ladder_step (env : Env) (n : Nat) (cert : Nat) : Bool × List Ev :=
  (env.faults n, [Ev.itopClear, Ev.certSelect cert, Ev.shaTrig, Ev.itopClear])

/-- The ordered derivation sequence of `compute_frk2`: certs 0, 3, 4, 5, 7,
15, 20, then cert 25 repeated `k_cr50_max_fw_major_version -
K_CROS_FW_MAJOR_VERSION` times, then cert 26. -/
def ladder_sequence : List Nat :=
  [0, 3, 4, 5, 7, 15, 20] ++
    List.replicate (k_cr50_max_fw_major_version - K_CROS_FW_MAJOR_VERSION) 25 ++ [26]

/-- Run the ladder steps of `l` in order starting at step position `n`,
stopping at the first step whose fault flag is raised.  Returns whether all
steps completed without fault, plus the emitted events. -/
def run_ladder (env : Env) : Nat → List Nat → Bool × List Ev
  | _, [] => (true, [])
  | n, c :: rest =>
    let s := hw_key_ladder_step env n c
    if s.1 then (false, s.2)
    else
      let r := run_ladder env (n + 1) rest
      (r.1, s.2 ++ r.2)

/-- `compute_frk2`: resets the SHA engine, runs the full ladder sequence, and
on success copies `AES256_BLOCK_CIPHER_KEY_SIZE` bytes from `HKEY_FRR0`.
Returns `none` if any step faulted. -/
def compute_frk2 (env : Env) : Option (List Nat) × List Ev :=
  let r := run_ladder env 0 ladder_sequence
  if r.1 then
    (some ((List.range AES256_BLOCK_CIPHER_KEY_SIZE).map fun i => env.frr0 i % 256),
      Ev.shaReset :: r.2)
  else (none, Ev.shaReset :: r.2)

/-! ## Seed recovery (`get_decrypted_eps`) -/

/-- The four bytes of a 32-bit word, little-endian. -/
def wordBytes (w : Nat) : List Nat :=
  [w % 256, w / 256 % 256, w / 65536 % 256, w / 16777216 % 256]

/-- Overwrite `buf` starting at position `p` with the bytes `bs`
(the `memcpy(eps + i, &word, sizeof(word))` of the source). -/
def setBytes : List Nat → Nat → List Nat → List Nat
  | buf, _, [] => buf
  | buf, p, b :: bs => setBytes (buf.set p b) (p + 1) bs

/-- The word-by-word read loop of `get_decrypted_eps`: reads `k` remaining
words starting at word index `i`, copying each into the buffer; stops at the
first failed read.  Returns (all reads succeeded, buffer, events). -/
def read_eps_words (env : Env) : Nat → Nat → List Nat → Bool × List Nat × List Ev
  | 0, _, buf => (true, buf, [])
  | k + 1, i, buf =>
    match env.flashWord i with
    | none => (false, buf, [Ev.flashRead i])
    | some w =>
      let r := read_eps_words env k (i + 1) (setBytes buf (4 * i) (wordBytes (w % U32)))
      (r.1, r.2.1, Ev.flashRead i :: r.2.2)

/-- Result of `get_decrypted_eps`: success flag, the `eps` buffer contents at
return, whether the flash-info read window is enabled at return (the window
is closed when the call starts), and the events emitted. -/
structure GdeOut where
  ok : Bool
  eps : List Nat
  infoOpen : Bool
  trace : List Ev
  deriving Repr, DecidableEq

/-- `get_decrypted_eps(eps)`: derives FRK2 (failing without touching flash if
the ladder faults), enables the flash-info read window, reads the encrypted
seed word-by-word — returning on a failed read *without* disabling the window,
exactly as the source does — then disables the window and XORs the ciphertext
with FRK2.  `epsBuf` is the caller's (uninitialized) 32-byte buffer. -/
def get_decrypted_eps (env : Env) (epsBuf : List Nat) : GdeOut :=
  match compute_frk2 env with
  | (none, tr) => ⟨false, epsBuf, false, tr⟩
  | (some frk2, tr) =>
    let r := read_eps_words env 8 0 epsBuf
    if r.1 then
      ⟨true,
        (List.range PRIMARY_SEED_SIZE).map fun i => Nat.xor (r.2.1.getD i 0) (frk2.getD i 0),
        false, tr ++ Ev.infoEnable :: r.2.2 ++ [Ev.infoDisable]⟩
    else ⟨false, r.2.1, true, tr ++ Ev.infoEnable :: r.2.2⟩

/-! ## NV credential store (`store_cert`, `store_eps`) -/

/-- Result of a store operation: success, events, updated commit counter. -/
structure StoreOut where
  ok : Bool
  trace : List Ev
  commits : Nat
  deriving Repr, DecidableEq

/-- The NV index `store_cert` selects: the base index for the RSA
certificate, base+1 otherwise (P256). -/
def cert_nv_index (component_type : Nat) : Nat :=
  if component_type = CROS_PERSO_COMPONENT_TYPE_RSA_CERT then EK_CERT_NV_START_INDEX
  else EK_CERT_NV_START_INDEX + 1

/-- `store_cert(component_type, cert, cert_len)`: runs `HierarchyStartup`,
selects the NV index, defines the space, writes the certificate bytes and
commits; each failing step returns 0 with no later step attempted.  `c0` is
the running commit counter. -/
def store_cert (env : Env) (c0 : Nat) (component_type : Nat)
    (cert : List Nat) (cert_len : Nat) : StoreOut :=
  if env.defineOk (cert_nv_index component_type) = true then
    if env.writeOk (cert_nv_index component_type) = true then
      ⟨env.commitOk c0,
        [Ev.hierarchyStartup, Ev.nvDefine (cert_nv_index component_type) cert_len,
          Ev.nvWrite (cert_nv_index component_type) (cert.take cert_len), Ev.nvCommit c0],
        c0 + 1⟩
    else
      ⟨false, [Ev.hierarchyStartup, Ev.nvDefine (cert_nv_index component_type) cert_len,
        Ev.nvWrite (cert_nv_index component_type) (cert.take cert_len)], c0⟩
  else ⟨false, [Ev.hierarchyStartup, Ev.nvDefine (cert_nv_index component_type) cert_len], c0⟩

/-- `store_eps(eps)`: copies the seed into the reserved `NV_EP_SEED` slot and
commits; success is the commit's success. -/
def store_eps (env : Env) (c0 : Nat) (eps : List Nat) : StoreOut :=
  ⟨env.commitOk c0, [Ev.nvWriteReserved eps, Ev.nvCommit c0], c0 + 1⟩

/-! ## Fixed fallback constants -/

/-- Fixed development endorsement seed (endorsement.c, `FIXED_ENDORSEMENT_SEED`). -/
def FIXED_ENDORSEMENT_SEED : List Nat := [
  28, 176, 222, 14, 150, 229, 88, 176, 173, 29, 58, 8, 34, 65, 127, 69,
  55, 231, 23, 66, 93, 135, 196, 119, 242, 151, 248, 221, 185, 160, 229, 58]

/-- Fixed development RSA endorsement certificate (endorsement.c, `FIXED_RSA_ENDORSEMENT_CERT`, 1007 bytes). -/
def FIXED_RSA_ENDORSEMENT_CERT : List Nat := [
  48, 130, 3, 235, 48, 130, 2, 211, 160, 3, 2, 1, 2, 2, 16, 87,
  215, 90, 188, 116, 168, 46, 17, 156, 115, 112, 45, 62, 21, 223, 78, 48,
  13, 6, 9, 42, 134, 72, 134, 247, 13, 1, 1, 11, 5, 0, 48, 129,
  128, 49, 11, 48, 9, 6, 3, 85, 4, 6, 19, 2, 85, 83, 49, 19,
  48, 17, 6, 3, 85, 4, 8, 12, 10, 67, 97, 108, 105, 102, 111, 114,
  110, 105, 97, 49, 20, 48, 18, 6, 3, 85, 4, 10, 12, 11, 71, 111,
  111, 103, 108, 101, 32, 73, 110, 99, 46, 49, 36, 48, 34, 6, 3, 85,
  4, 11, 12, 27, 69, 110, 103, 105, 110, 101, 101, 114, 105, 110, 103, 32,
  97, 110, 100, 32, 68, 101, 118, 101, 108, 111, 112, 109, 101, 110, 116, 49,
  32, 48, 30, 6, 3, 85, 4, 3, 12, 23, 67, 82, 79, 83, 32, 84,
  80, 77, 32, 68, 69, 86, 32, 69, 75, 32, 82, 79, 79, 84, 32, 67,
  65, 48, 30, 23, 13, 49, 54, 49, 48, 50, 48, 48, 48, 52, 57, 51,
  54, 90, 23, 13, 50, 54, 49, 48, 49, 56, 48, 48, 52, 57, 51, 54,
  90, 48, 0, 48, 130, 1, 34, 48, 13, 6, 9, 42, 134, 72, 134, 247,
  13, 1, 1, 1, 5, 0, 3, 130, 1, 15, 0, 48, 130, 1, 10, 2,
  130, 1, 1, 0, 174, 63, 126, 102, 120, 38, 122, 56, 147, 175, 156, 228,
  44, 60, 158, 17, 183, 174, 47, 113, 141, 79, 46, 63, 210, 53, 24, 176,
  39, 4, 78, 4, 102, 178, 22, 212, 168, 252, 81, 96, 27, 5, 28, 2,
  181, 119, 27, 246, 64, 196, 14, 1, 191, 112, 193, 104, 83, 139, 32, 76,
  163, 57, 9, 212, 78, 40, 124, 29, 218, 87, 92, 65, 174, 155, 243, 213,
  211, 70, 18, 61, 67, 204, 57, 41, 121, 157, 229, 135, 132, 34, 133, 75,
  73, 53, 22, 79, 59, 221, 216, 175, 227, 153, 250, 55, 175, 189, 169, 56,
  180, 71, 88, 30, 113, 178, 70, 242, 20, 133, 67, 18, 85, 139, 195, 91,
  120, 134, 208, 11, 8, 135, 29, 247, 76, 105, 71, 145, 209, 22, 92, 14,
  247, 13, 173, 74, 45, 216, 116, 226, 137, 225, 175, 215, 84, 182, 224, 54,
  118, 123, 212, 109, 80, 100, 19, 91, 134, 168, 167, 238, 237, 249, 80, 77,
  172, 29, 31, 156, 27, 88, 25, 165, 32, 25, 117, 183, 207, 246, 55, 89,
  42, 199, 91, 20, 81, 230, 100, 112, 204, 14, 144, 159, 232, 243, 197, 149,
  65, 116, 36, 180, 109, 55, 74, 144, 23, 14, 17, 234, 222, 116, 14, 5,
  77, 31, 156, 17, 234, 6, 189, 144, 154, 159, 68, 85, 15, 147, 130, 150,
  252, 41, 183, 38, 94, 1, 37, 85, 75, 128, 218, 214, 45, 224, 217, 101,
  207, 203, 122, 43, 2, 3, 1, 0, 1, 163, 129, 223, 48, 129, 220, 48,
  14, 6, 3, 85, 29, 15, 1, 1, 255, 4, 4, 3, 2, 0, 32, 48,
  81, 6, 3, 85, 29, 17, 1, 1, 255, 4, 71, 48, 69, 164, 67, 48,
  65, 49, 22, 48, 20, 6, 5, 103, 129, 5, 2, 1, 12, 11, 105, 100,
  58, 52, 55, 52, 70, 52, 70, 52, 55, 49, 15, 48, 13, 6, 5, 103,
  129, 5, 2, 2, 12, 4, 72, 49, 66, 50, 49, 22, 48, 20, 6, 5,
  103, 129, 5, 2, 3, 12, 11, 105, 100, 58, 48, 48, 49, 51, 48, 48,
  51, 55, 48, 12, 6, 3, 85, 29, 19, 1, 1, 255, 4, 2, 48, 0,
  48, 19, 6, 3, 85, 29, 32, 4, 12, 48, 10, 48, 8, 6, 6, 103,
  129, 12, 1, 2, 2, 48, 31, 6, 3, 85, 29, 35, 4, 24, 48, 22,
  128, 20, 213, 253, 75, 241, 190, 5, 251, 19, 40, 226, 95, 57, 211, 157,
  112, 74, 72, 145, 107, 176, 48, 16, 6, 3, 85, 29, 37, 4, 9, 48,
  7, 6, 5, 103, 129, 5, 8, 1, 48, 33, 6, 3, 85, 29, 9, 4,
  26, 48, 24, 48, 22, 6, 5, 103, 129, 5, 2, 16, 49, 13, 48, 11,
  12, 3, 50, 46, 48, 2, 1, 0, 2, 1, 16, 48, 13, 6, 9, 42,
  134, 72, 134, 247, 13, 1, 1, 11, 5, 0, 3, 130, 1, 1, 0, 76,
  101, 63, 88, 115, 182, 33, 114, 179, 44, 195, 148, 244, 179, 224, 116, 163,
  46, 71, 167, 99, 18, 163, 15, 197, 24, 69, 6, 171, 169, 186, 100, 240,
  235, 24, 124, 186, 87, 9, 208, 17, 96, 111, 189, 82, 115, 171, 57, 129,
  41, 171, 120, 132, 236, 0, 227, 135, 236, 241, 125, 46, 21, 63, 173, 27,
  58, 63, 3, 83, 145, 238, 114, 122, 135, 116, 168, 9, 125, 131, 55, 13,
  70, 34, 18, 243, 121, 97, 175, 128, 243, 244, 118, 125, 189, 179, 31, 135,
  184, 102, 201, 36, 21, 233, 199, 91, 25, 223, 4, 10, 71, 236, 136, 70,
  127, 32, 108, 75, 35, 219, 101, 103, 84, 222, 58, 195, 100, 187, 119, 77,
  109, 75, 30, 67, 154, 53, 32, 126, 40, 206, 78, 229, 183, 11, 174, 208,
  38, 192, 172, 47, 121, 53, 113, 189, 116, 104, 141, 81, 111, 132, 77, 170,
  202, 13, 240, 168, 65, 92, 169, 110, 59, 112, 21, 115, 141, 240, 112, 211,
  179, 14, 167, 58, 52, 18, 210, 30, 164, 24, 76, 49, 238, 38, 68, 36,
  224, 165, 202, 86, 93, 118, 158, 244, 154, 110, 43, 214, 74, 233, 71, 217,
  41, 148, 45, 35, 247, 187, 19, 12, 72, 115, 147, 227, 73, 199, 216, 202,
  93, 99, 245, 104, 178, 233, 26, 230, 135, 57, 248, 18, 167, 92, 178, 110,
  4, 208, 115, 58, 5, 119, 192, 159, 35, 167, 26, 113, 56, 85, 112]

/-- Fixed development ECC endorsement certificate (endorsement.c, `FIXED_ECC_ENDORSEMENT_CERT`, 804 bytes). -/
def FIXED_ECC_ENDORSEMENT_CERT : List Nat := [
  48, 130, 3, 32, 48, 130, 2, 8, 160, 3, 2, 1, 2, 2, 16, 103,
  2, 63, 53, 195, 23, 173, 207, 10, 118, 237, 80, 23, 216, 78, 80, 48,
  13, 6, 9, 42, 134, 72, 134, 247, 13, 1, 1, 11, 5, 0, 48, 129,
  128, 49, 11, 48, 9, 6, 3, 85, 4, 6, 19, 2, 85, 83, 49, 19,
  48, 17, 6, 3, 85, 4, 8, 12, 10, 67, 97, 108, 105, 102, 111, 114,
  110, 105, 97, 49, 20, 48, 18, 6, 3, 85, 4, 10, 12, 11, 71, 111,
  111, 103, 108, 101, 32, 73, 110, 99, 46, 49, 36, 48, 34, 6, 3, 85,
  4, 11, 12, 27, 69, 110, 103, 105, 110, 101, 101, 114, 105, 110, 103, 32,
  97, 110, 100, 32, 68, 101, 118, 101, 108, 111, 112, 109, 101, 110, 116, 49,
  32, 48, 30, 6, 3, 85, 4, 3, 12, 23, 67, 82, 79, 83, 32, 84,
  80, 77, 32, 68, 69, 86, 32, 69, 75, 32, 82, 79, 79, 84, 32, 67,
  65, 48, 30, 23, 13, 49, 54, 49, 48, 50, 48, 48, 48, 52, 57, 51,
  54, 90, 23, 13, 50, 54, 49, 48, 49, 56, 48, 48, 52, 57, 51, 54,
  90, 48, 0, 48, 89, 48, 19, 6, 7, 42, 134, 72, 206, 61, 2, 1,
  6, 8, 42, 134, 72, 206, 61, 3, 1, 7, 3, 66, 0, 4, 110, 204,
  240, 150, 105, 155, 63, 234, 149, 183, 213, 0, 39, 32, 129, 142, 87, 0,
  111, 103, 152, 206, 142, 223, 199, 218, 174, 168, 163, 237, 62, 122, 179, 39,
  191, 146, 238, 178, 162, 118, 129, 193, 113, 77, 140, 168, 157, 253, 142, 208,
  41, 181, 1, 32, 236, 120, 192, 23, 143, 246, 248, 103, 95, 232, 163, 129,
  223, 48, 129, 220, 48, 14, 6, 3, 85, 29, 15, 1, 1, 255, 4, 4,
  3, 2, 0, 32, 48, 81, 6, 3, 85, 29, 17, 1, 1, 255, 4, 71,
  48, 69, 164, 67, 48, 65, 49, 22, 48, 20, 6, 5, 103, 129, 5, 2,
  1, 12, 11, 105, 100, 58, 52, 55, 52, 70, 52, 70, 52, 55, 49, 15,
  48, 13, 6, 5, 103, 129, 5, 2, 2, 12, 4, 72, 49, 66, 50, 49,
  22, 48, 20, 6, 5, 103, 129, 5, 2, 3, 12, 11, 105, 100, 58, 48,
  48, 49, 51, 48, 48, 51, 55, 48, 12, 6, 3, 85, 29, 19, 1, 1,
  255, 4, 2, 48, 0, 48, 19, 6, 3, 85, 29, 32, 4, 12, 48, 10,
  48, 8, 6, 6, 103, 129, 12, 1, 2, 2, 48, 31, 6, 3, 85, 29,
  35, 4, 24, 48, 22, 128, 20, 213, 253, 75, 241, 190, 5, 251, 19, 40,
  226, 95, 57, 211, 157, 112, 74, 72, 145, 107, 176, 48, 16, 6, 3, 85,
  29, 37, 4, 9, 48, 7, 6, 5, 103, 129, 5, 8, 1, 48, 33, 6,
  3, 85, 29, 9, 4, 26, 48, 24, 48, 22, 6, 5, 103, 129, 5, 2,
  16, 49, 13, 48, 11, 12, 3, 50, 46, 48, 2, 1, 0, 2, 1, 16,
  48, 13, 6, 9, 42, 134, 72, 134, 247, 13, 1, 1, 11, 5, 0, 3,
  130, 1, 1, 0, 33, 171, 158, 146, 77, 176, 80, 4, 235, 43, 182, 204,
  135, 140, 168, 39, 227, 90, 191, 3, 93, 177, 77, 36, 218, 223, 68, 219,
  74, 55, 92, 62, 112, 243, 53, 93, 38, 46, 170, 133, 198, 190, 28, 157,
  30, 95, 246, 108, 184, 148, 65, 37, 32, 85, 40, 83, 85, 103, 154, 181,
  251, 107, 87, 9, 240, 91, 226, 102, 197, 232, 209, 158, 184, 183, 237, 216,
  65, 181, 189, 68, 217, 83, 171, 45, 23, 76, 115, 5, 25, 44, 157, 24,
  152, 216, 85, 190, 189, 182, 165, 246, 95, 61, 112, 152, 214, 208, 207, 28,
  13, 198, 120, 109, 46, 156, 68, 246, 158, 10, 128, 18, 205, 155, 75, 31,
  188, 254, 231, 63, 69, 129, 120, 67, 64, 242, 176, 107, 44, 35, 200, 200,
  87, 198, 51, 8, 62, 23, 67, 22, 240, 63, 191, 36, 84, 186, 230, 133,
  76, 200, 46, 127, 136, 65, 108, 78, 3, 166, 53, 0, 77, 219, 101, 104,
  120, 1, 64, 198, 160, 149, 217, 233, 39, 225, 144, 32, 200, 230, 167, 124,
  77, 156, 28, 68, 71, 254, 158, 201, 37, 122, 7, 169, 134, 96, 88, 24,
  28, 22, 24, 126, 4, 214, 90, 182, 203, 182, 166, 15, 217, 66, 243, 25,
  140, 190, 38, 152, 221, 7, 5, 118, 192, 249, 164, 235, 83, 255, 19, 39,
  97, 135, 102, 153, 118, 156, 95, 3, 82, 149, 19, 110, 183, 51, 31, 141,
  198, 34, 216, 228]


/-- The first store of `install_fixed_certs`: the fixed seed. -/
def fixed_seed_store (env : Env) (c0 : Nat) : StoreOut :=
  store_eps env c0 FIXED_ENDORSEMENT_SEED

/-- The second store of `install_fixed_certs`: the fixed RSA certificate,
with `sizeof(FIXED_RSA_ENDORSEMENT_CERT)` as length. -/
def fixed_rsa_store (env : Env) (c0 : Nat) : StoreOut :=
  store_cert env (fixed_seed_store env c0).commits CROS_PERSO_COMPONENT_TYPE_RSA_CERT
    FIXED_RSA_ENDORSEMENT_CERT FIXED_RSA_ENDORSEMENT_CERT.length

/-- The third store of `install_fixed_certs`: the fixed ECC certificate. -/
def fixed_ecc_store (env : Env) (c0 : Nat) : StoreOut :=
  store_cert env (fixed_rsa_store env c0).commits CROS_PERSO_COMPONENT_TYPE_P256_CERT
    FIXED_ECC_ENDORSEMENT_CERT FIXED_ECC_ENDORSEMENT_CERT.length

/-- `install_fixed_certs()`: stores the fixed seed, then the fixed RSA
certificate, then the fixed ECC certificate, stopping at the first failing
store. -/
def install_fixed_certs (env : Env) (c0 : Nat) : StoreOut :=
  if (fixed_seed_store env c0).ok = true then
    if (fixed_rsa_store env c0).ok = true then
      ⟨(fixed_ecc_store env c0).ok,
        (fixed_seed_store env c0).trace ++ (fixed_rsa_store env c0).trace
          ++ (fixed_ecc_store env c0).trace,
        (fixed_ecc_store env c0).commits⟩
    else
      ⟨false, (fixed_seed_store env c0).trace ++ (fixed_rsa_store env c0).trace,
        (fixed_rsa_store env c0).commits⟩
  else ⟨false, (fixed_seed_store env c0).trace, (fixed_seed_store env c0).commits⟩

/-! ## Certificate validation (`validate_cert`, `handle_cert`) -/

/-- `struct cros_perso_response_component_info_v0`. -/
structure ComponentInfo where
  component_size : Nat
  component_type : Nat
  reserved : List Nat
  deriving Repr, DecidableEq

/-- `struct cros_perso_certificate_response_v0`; `cert` is the byte getter of
the flexible-array certificate body. -/
structure CertResponse where
  key_id : List Nat
  cert_len : Nat
  cert : Nat → Nat

/-- The `cert_len` certificate bytes handed to the crypto engine and the NV
store. -/
def cert_bytes (c : CertResponse) : List Nat :=
  (List.range c.cert_len).map fun k => c.cert k % 256

/-- `validate_cert(cert_info, cert, eps)`: rejects a component type outside
{RSA cert, P256 cert}, rejects `cert_len > MAX_NV_BUFFER_SIZE`, otherwise
verifies against the production root and — only if that fails, by `||`
short-circuit — against the test root.  The second component records which
verification calls were performed.  The `eps` parameter is accepted and,
exactly as in the source, never used. -/
def validate_cert (env : Env) (cert_info : ComponentInfo) (cert : CertResponse)
    (eps : List Nat) : Bool × List Ev :=
  if cert_info.component_type ≠ CROS_PERSO_COMPONENT_TYPE_RSA_CERT ∧
      cert_info.component_type ≠ CROS_PERSO_COMPONENT_TYPE_P256_CERT then
    (false, [])
  else if cert.cert_len > env.maxNvBufferSize then (false, [])
  else if env.verifyProd (cert_bytes cert) then (true, [Ev.verifyCall 0])
  else (env.verifyTest (cert_bytes cert), [Ev.verifyCall 0, Ev.verifyCall 1])

/-- `handle_cert`: validates, then stores the certificate under its component
type; returns 0 on either failure. -/
def handle_cert (env : Env) (c0 : Nat) (cert_info : ComponentInfo)
    (cert : CertResponse) (eps : List Nat) : Bool × List Ev × Nat :=
  let v := validate_cert env cert_info cert eps
  if v.1 then
    let s := store_cert env c0 cert_info.component_type (cert_bytes cert) cert.cert_len
    (s.ok, v.2 ++ s.trace, s.commits)
  else (false, v.2, c0)

/-! ## Region parsing and the integrity check of `tpm_endorse` -/

/-- `*c` where `c = (const uint32_t *) RO_CERTS_START_ADDR`: the region's
first little-endian word (compared against the erased pattern 0xFFFFFFFF). -/
def first_flash_word (env : Env) : Nat :=
  le32 (regionByte env 0) (regionByte env 1) (regionByte env 2) (regionByte env 3)

/-- `rsa_cert->cert_info.component_type` (byte 2 of the region: after the
16-bit `component_size`). -/
def rsa_cert_type (env : Env) : Nat := regionByte env 2

/-- `rsa_cert->cert_response.cert_len` (little-endian bytes 12..15 of the
region: after the 8-byte component info and the 4-byte `key_id`). -/
def rsa_cert_len (env : Env) : Nat :=
  le32 (regionByte env 12) (regionByte env 13) (regionByte env 14) (regionByte env 15)

/-- Address of `ecc_cert = p + sizeof(struct ro_cert) + rsa_cert_len`
(reduced mod 2^32 at each byte read, as 32-bit pointer arithmetic is). -/
def ecc_base (env : Env) : Nat := RO_CERTS_START_ADDR + 16 + rsa_cert_len env

/-- `ecc_cert->cert_info.component_type`. -/
def ecc_cert_type (env : Env) : Nat := memByte env (ecc_base env + 2)

/-- `ecc_cert->cert_response.cert_len`. -/
def ecc_cert_len (env : Env) : Nat :=
  le32 (memByte env (ecc_base env + 12)) (memByte env (ecc_base env + 13))
    (memByte env (ecc_base env + 14)) (memByte env (ecc_base env + 15))

/-- The component-info descriptor of the RSA record as read from the region. -/
def rsa_info (env : Env) : ComponentInfo :=
  ⟨le32 (regionByte env 0) (regionByte env 1) 0 0 % 65536, rsa_cert_type env,
    (List.range 5).map fun k => regionByte env (3 + k)⟩

/-- The certificate record of the RSA record; its body starts at region
offset 16. -/
def rsa_resp (env : Env) : CertResponse :=
  ⟨(List.range 4).map fun k => regionByte env (8 + k), rsa_cert_len env,
    fun k => regionByte env (16 + k)⟩

/-- The component-info descriptor of the ECC record. -/
def ecc_info (env : Env) : ComponentInfo :=
  ⟨le32 (memByte env (ecc_base env)) (memByte env (ecc_base env + 1)) 0 0 % 65536,
    ecc_cert_type env,
    (List.range 5).map fun k => memByte env (ecc_base env + 3 + k)⟩

/-- The certificate record of the ECC record; its body starts 16 bytes past
`ecc_base`. -/
def ecc_resp (env : Env) : CertResponse :=
  ⟨(List.range 4).map fun k => memByte env (ecc_base env + 8 + k), ecc_cert_len env,
    fun k => memByte env (ecc_base env + 16 + k)⟩

/-- The 4-byte key-derivation label: `HASH_update(&hmac.hash, "RSA", 4)`
covers the three letters and the terminating NUL. -/
def rsa_label : List Nat := [0x52, 0x53, 0x41, 0x00]

/-- The first `RO_CERTS_REGION_SIZE - 32` bytes of the region, covered by the
integrity tag. -/
def covered_bytes (env : Env) : List Nat :=
  (List.range (RO_CERTS_REGION_SIZE - 32)).map fun i => regionByte env i

/-- The trailing 32 bytes of the region, holding the stored integrity tag. -/
def stored_tag (env : Env) : List Nat :=
  (List.range 32).map fun i => regionByte env (RO_CERTS_REGION_SIZE - 32 + i)

/-- `HMAC-SHA256(HMAC-SHA256(eps, "RSA"), region[0 : 2048-32])`, the tag the
code recomputes in the do-while block. -/
def hmac_formula (env : Env) (eps : List Nat) : List Nat :=
  env.hmac (env.hmac eps rsa_label) (covered_bytes env)

/-- The region-integrity check: `memcmp(p + 2016, DCRYPTO_HMAC_final(&hmac),
32) == 0`. -/
def region_hmac_ok (env : Env) (eps : List Nat) : Prop :=
  stored_tag env = hmac_formula env eps

instance (env : Env) (eps : List Nat) : Decidable (region_hmac_ok env eps) :=
  inferInstanceAs (Decidable (stored_tag env = hmac_formula env eps))

/-! ## The endorsement orchestrator (`tpm_endorse`) -/

/-- Which `return` of `tpm_endorse` produced the result: one tag per exit
path of the source function. -/
inductive Path where
  /-- `*c == 0xFFFFFFFF`: first boot, certs not installed -/
  | unprovisioned
  /-- `!get_decrypted_eps(eps)` -/
  | epsFail
  /-- first sanity check: `2*sizeof(ro_cert) + rsa_len > RO_CERTS_REGION_SIZE` -/
  | boundsRsa
  /-- second sanity check, including `ecc_len` -/
  | boundsEcc
  /-- RSA record's component type is not `CROS_PERSO_COMPONENT_TYPE_RSA_CERT` -/
  | rsaType
  /-- ECC record's component type is not `CROS_PERSO_COMPONENT_TYPE_P256_CERT` -/
  | eccType
  /-- region HMAC mismatch: fixed fallback identity installed -/
  | fallback
  /-- `handle_cert` failed for the RSA certificate -/
  | rsaHandleFail
  /-- `handle_cert` failed for the ECC certificate -/
  | eccHandleFail
  /-- final `store_eps(eps)` failed -/
  | sealFail
  /-- endorsement completed, result 1 -/
  | success
  deriving Repr, DecidableEq

/-- Result of one `tpm_endorse` run: the C return value, the contents of the
stack `eps` buffer at return, the exit path taken, the event trace, and
whether each protected flash read window is (still) enabled at return. -/
structure EndorseOut where
  result : Nat
  eps : List Nat
  path : Path
  trace : List Ev
  infoOpen : Bool
  certOpen : Bool
  deriving Repr, DecidableEq

/-- The 32 zero bytes `memset(eps, 0, sizeof(eps))` leaves behind. -/
def zeros32 : List Nat := List.replicate 32 0

/-- The uninitialized stack buffer `uint8_t eps[PRIMARY_SEED_SIZE]`, with
arbitrary garbage `eps0`. -/
def init_eps_buf (eps0 : Nat → Nat) : List Nat :=
  (List.range PRIMARY_SEED_SIZE).map fun i => eps0 i % 256

/-- The `get_decrypted_eps(eps)` call of `tpm_endorse`, applied to the
uninitialized stack buffer. -/
def gde_at (env : Env) (eps0 : Nat → Nat) : GdeOut :=
  get_decrypted_eps env (init_eps_buf eps0)

/-- The first `handle_cert` call of `tpm_endorse` (RSA record). -/
def rsa_handle (env : Env) (eps0 : Nat → Nat) : Bool × List Ev × Nat :=
  handle_cert env 0 (rsa_info env) (rsa_resp env) (gde_at env eps0).eps

/-- The second `handle_cert` call of `tpm_endorse` (ECC record), with the
commit counter left by the RSA store. -/
def ecc_handle (env : Env) (eps0 : Nat → Nat) : Bool × List Ev × Nat :=
  handle_cert env (rsa_handle env eps0).2.2 (ecc_info env) (ecc_resp env)
    (gde_at env eps0).eps

/-- The final `store_eps(eps)` call of `tpm_endorse`. -/
def seal_store (env : Env) (eps0 : Nat → Nat) : StoreOut :=
  store_eps env (ecc_handle env eps0).2.2 (gde_at env eps0).eps

/-- The events of `tpm_endorse` up to and including the region-HMAC
comparison. -/
def hmac_trace (env : Env) (eps0 : Nat → Nat) : List Ev :=
  Ev.certRegionEnable :: (gde_at env eps0).trace ++ [Ev.hmacCheck]

/-- `tpm_endorse()`.  Every branch mirrors one exit path of the source:
the two sanity checks use 32-bit (`% 2^32`) arithmetic exactly as the C
`size_t`/`uint32_t` addition does; the `memset(eps, 0, sizeof(eps))` runs only
on the do-while exits (fallback, certificate/storage failure, success) because
the earlier `return 0` statements bypass it; `flash_cert_region_enable()` has
no matching disable anywhere in the function. -/
def tpm_endorse (env : Env) (eps0 : Nat → Nat) : EndorseOut :=
  if first_flash_word env = 4294967295 then
    ⟨0, init_eps_buf eps0, Path.unprovisioned, [Ev.certRegionEnable], false, true⟩
  else if (gde_at env eps0).ok = false then
    ⟨0, (gde_at env eps0).eps, Path.epsFail,
      Ev.certRegionEnable :: (gde_at env eps0).trace, (gde_at env eps0).infoOpen, true⟩
  else if 2048 < (32 + rsa_cert_len env) % U32 then
    ⟨0, (gde_at env eps0).eps, Path.boundsRsa,
      Ev.certRegionEnable :: (gde_at env eps0).trace, (gde_at env eps0).infoOpen, true⟩
  else if 2048 < (32 + rsa_cert_len env + ecc_cert_len env) % U32 then
    ⟨0, (gde_at env eps0).eps, Path.boundsEcc,
      Ev.certRegionEnable :: (gde_at env eps0).trace, (gde_at env eps0).infoOpen, true⟩
  else if rsa_cert_type env ≠ CROS_PERSO_COMPONENT_TYPE_RSA_CERT then
    ⟨0, (gde_at env eps0).eps, Path.rsaType,
      Ev.certRegionEnable :: (gde_at env eps0).trace, (gde_at env eps0).infoOpen, true⟩
  else if ecc_cert_type env ≠ CROS_PERSO_COMPONENT_TYPE_P256_CERT then
    ⟨0, (gde_at env eps0).eps, Path.eccType,
      Ev.certRegionEnable :: (gde_at env eps0).trace, (gde_at env eps0).infoOpen, true⟩
  else if region_hmac_ok env (gde_at env eps0).eps then
    if (rsa_handle env eps0).1 = true then
      if (ecc_handle env eps0).1 = true then
        if (seal_store env eps0).ok = true then
          ⟨1, zeros32, Path.success,
            hmac_trace env eps0 ++ (rsa_handle env eps0).2.1 ++ (ecc_handle env eps0).2.1
              ++ (seal_store env eps0).trace, (gde_at env eps0).infoOpen, true⟩
        else
          ⟨0, zeros32, Path.sealFail,
            hmac_trace env eps0 ++ (rsa_handle env eps0).2.1 ++ (ecc_handle env eps0).2.1
              ++ (seal_store env eps0).trace, (gde_at env eps0).infoOpen, true⟩
      else
        ⟨0, zeros32, Path.eccHandleFail,
          hmac_trace env eps0 ++ (rsa_handle env eps0).2.1 ++ (ecc_handle env eps0).2.1,
          (gde_at env eps0).infoOpen, true⟩
    else
      ⟨0, zeros32, Path.rsaHandleFail,
        hmac_trace env eps0 ++ (rsa_handle env eps0).2.1, (gde_at env eps0).infoOpen, true⟩
  else
    ⟨0, zeros32, Path.fallback,
      hmac_trace env eps0 ++ (install_fixed_certs env 0).trace,
      (gde_at env eps0).infoOpen, true⟩

/-! ## Helper definitions for the statements -/

/-- The events one executed ladder step emits: status clear, step select,
trigger, status clear. -/
def stepEvents (c : Nat) : List Ev :=
  [Ev.itopClear, Ev.certSelect c, Ev.shaTrig, Ev.itopClear]

/-- The prefix of a planned step list that actually executes: everything up
to and including the first step whose fault flag is raised. -/
def steps_until_fault (env : Env) : Nat → List Nat → List Nat
  | _, [] => []
  | n, c :: rest =>
    if env.faults n then [c] else c :: steps_until_fault env (n + 1) rest

/-- Whether the full ladder derivation completes without a fault. -/
def frk2_ok (env : Env) : Bool := (compute_frk2 env).1.isSome

/-- Whether some word read of the encrypted seed fails. -/
def eps_read_fails (env : Env) : Bool :=
  (List.range 8).any fun i => (env.flashWord i).isNone

/-- Whether an event is an NV-store operation (define, write, reserved write
or commit). -/
def isNvEv : Ev → Bool
  | Ev.nvDefine _ _ => true
  | Ev.nvWrite _ _ => true
  | Ev.nvWriteReserved _ => true
  | Ev.nvCommit _ => true
  | _ => false

/-- "Benign" events for the pre-HMAC phases: neither NV-store operations nor
the HMAC comparison itself. -/
def benign (e : Ev) : Prop := isNvEv e = false ∧ e ≠ Ev.hmacCheck

/-! ## Concrete environments used to instantiate the theorems

Addresses: the region starts at `RO_CERTS_START_ADDR = 276480`; byte 2 of the
region (the RSA record's component type) is address 276482; bytes 12..15 hold
the RSA record's `cert_len`; with `cert_len = 0` the ECC record starts at
region offset 16, so its component type is at address 276498. -/

/-- A benign baseline environment: no ladder faults, all flash reads succeed
with zero words, all-zero flash memory, production-root verification
succeeds, all NV operations succeed, and the (spec-modelled) HMAC oracle
returns 32 zero bytes. -/
def envBase : Env where
  faults := fun _ => false
  frr0 := fun _ => 0
  flashWord := fun _ => some 0
  mem := fun _ => 0
  verifyProd := fun _ => true
  verifyTest := fun _ => false
  defineOk := fun _ => true
  writeOk := fun _ => true
  commitOk := fun _ => true
  maxNvBufferSize := 1024
  hmac := fun _ _ => zeros32

/-- Region memory whose RSA record has component type 129 and whose ECC
record (at offset 16, since `cert_len = 0`) has component type 130. -/
def mem_happy (a : Nat) : Nat :=
  if a = 276482 then 129 else if a = 276498 then 130 else 0

/-- Environment driving `tpm_endorse` down the success path. -/
def envHappy : Env := { envBase with mem := mem_happy }

/-- Like `envHappy` but the HMAC oracle returns a value that cannot equal the
32-byte stored tag, so the integrity check fails and the fallback runs. -/
def envFallbackW : Env := { envBase with mem := mem_happy, hmac := fun _ _ => [1] }

/-- Environment whose fourth ladder step (position 3) raises the hardware
fault flag. -/
def envLadderFault : Env := { envBase with faults := fun n => n == 3 }

/-- Environment whose RSA record declares `cert_len = 5000` (bytes 136, 19),
failing the first sanity check, while seed recovery yields nonzero bytes
(flash words 0x01010101 XOR a zero FRK2). -/
def envBigLen : Env :=
  { envBase with
    mem := fun a => if a = 276492 then 136 else if a = 276493 then 19 else 0
    flashWord := fun _ => some 16843009 }

/-- Environment in which every protected flash word read fails. -/
def envReadFail : Env := { envBase with flashWord := fun _ => none }

/-- Environment whose RSA record declares `cert_len = 0xFFFFFFE0`
(= 4294967264): the 32-bit sum `32 + cert_len` wraps to 0, so both sanity
checks pass although the exact sum exceeds the region size. -/
def envWrapLen : Env :=
  { envBase with
    mem := fun a =>
      if a = 276492 then 224 else if 276493 ≤ a ∧ a ≤ 276495 then 255 else 0 }

/-- Like `envBase` but with region byte 100 (address 276580) changed from 0
to 1: a single-bit flip inside the tag-covered span. -/
def envBitFlip : Env :=
  { envBase with mem := fun a => if a = 276580 then 1 else 0 }

/-- Environment in which every `NvCommit()` fails, so the very first store of
the fallback installation (the seed store) fails. -/
def envCommitFail : Env := { envBase with commitOk := fun _ => false }

/-! ## Key ladder lemmas -/

theorem run_ladder_trace (env : Env) :
    ∀ (l : List Nat) (n : Nat),
      (run_ladder env n l).2 = ((steps_until_fault env n l).map stepEvents).flatten := by
  intro l
  induction l with
  | nil => intro n; simp [run_ladder, steps_until_fault]
  | cons c rest ih =>
    intro n
    simp only [run_ladder, steps_until_fault, hw_key_ladder_step]
    cases h : env.faults n
    · simp [h, stepEvents, ih]
    · simp [h, stepEvents]

theorem run_ladder_ok (env : Env) :
    ∀ (l : List Nat) (n : Nat),
      (run_ladder env n l).1 = true ↔ ∀ i < l.length, env.faults (n + i) = false := by
  intro l
  induction l with
  | nil => intro n; simp [run_ladder]
  | cons c rest ih =>
    intro n
    simp only [run_ladder, hw_key_ladder_step]
    cases h : env.faults n
    · simp only [h, Bool.false_eq_true, if_false]
      rw [ih (n + 1)]
      constructor
      · intro hall i hi
        cases i with
        | zero => simpa using h
        | succ j =>
          have := hall j (by simpa using Nat.lt_of_succ_lt_succ hi)
          simpa [Nat.add_assoc, Nat.add_comm 1 j] using this
      · intro hall i hi
        have := hall (i + 1) (by simpa using Nat.succ_lt_succ hi)
        simpa [Nat.add_assoc, Nat.add_comm 1 i] using this
    · simp only [h, if_true]
      constructor
      · intro hfalse; cases hfalse
      · intro hall
        have := hall 0 (by simp)
        simp [h] at this

theorem steps_until_fault_no_fault (env : Env) :
    ∀ (l : List Nat) (n : Nat),
      (∀ i < l.length, env.faults (n + i) = false) → steps_until_fault env n l = l := by
  intro l
  induction l with
  | nil => intro n _; rfl
  | cons c rest ih =>
    intro n hall
    have h0 : env.faults n = false := by simpa using hall 0 (by simp)
    simp only [steps_until_fault, h0, Bool.false_eq_true, if_false]
    rw [ih (n + 1)]
    intro i hi
    have := hall (i + 1) (by simpa using Nat.succ_lt_succ hi)
    simpa [Nat.add_assoc, Nat.add_comm 1 i] using this

theorem steps_until_fault_take (env : Env) :
    ∀ (l : List Nat) (n k : Nat), k < l.length → env.faults (n + k) = true →
      (∀ j < k, env.faults (n + j) = false) →
      steps_until_fault env n l = l.take (k + 1) := by
  intro l
  induction l with
  | nil => intro n k hk; simp at hk
  | cons c rest ih =>
    intro n k hk hfault hbefore
    cases k with
    | zero =>
      simp only [Nat.add_zero] at hfault
      simp [steps_until_fault, hfault]
    | succ m =>
      have h0 : env.faults n = false := by simpa using hbefore 0 (Nat.succ_pos m)
      simp only [steps_until_fault, h0, Bool.false_eq_true, if_false, List.take_succ_cons]
      congr 1
      apply ih (n + 1) m (by simpa using Nat.lt_of_succ_lt_succ hk)
      · simpa [Nat.add_assoc, Nat.add_comm 1 m] using hfault
      · intro j hj
        have := hbefore (j + 1) (Nat.succ_lt_succ hj)
        simpa [Nat.add_assoc, Nat.add_comm 1 j] using this

/-! ## Seed recovery lemmas -/

theorem read_eps_words_ok (env : Env) :
    ∀ (k i : Nat) (buf : List Nat),
      (read_eps_words env k i buf).1 = true ↔
        ∀ j < k, (env.flashWord (i + j)).isSome = true := by
  intro k
  induction k with
  | zero => intro i buf; simp [read_eps_words]
  | succ m ih =>
    intro i buf
    simp only [read_eps_words]
    cases hw : env.flashWord i with
    | none =>
      simp only []
      constructor
      · intro hfalse; cases hfalse
      · intro hall
        have := hall 0 (Nat.succ_pos m)
        simp [hw] at this
    | some w =>
      simp only []
      rw [ih (i + 1)]
      constructor
      · intro hall j hj
        cases j with
        | zero => simp [hw]
        | succ j =>
          have := hall j (by simpa using Nat.lt_of_succ_lt_succ hj)
          simpa [Nat.add_assoc, Nat.add_comm 1 j] using this
      · intro hall j hj
        have := hall (j + 1) (Nat.succ_lt_succ hj)
        simpa [Nat.add_assoc, Nat.add_comm 1 j] using this

theorem compute_frk2_trace (env : Env) :
    (compute_frk2 env).2 = Ev.shaReset :: (run_ladder env 0 ladder_sequence).2 := by
  cases h : (run_ladder env 0 ladder_sequence).1 <;> simp [compute_frk2, h]

theorem compute_frk2_isSome (env : Env) :
    (compute_frk2 env).1.isSome = (run_ladder env 0 ladder_sequence).1 := by
  cases h : (run_ladder env 0 ladder_sequence).1 <;> simp [compute_frk2, h]

theorem frk2_ok_eq (env : Env) :
    frk2_ok env = (run_ladder env 0 ladder_sequence).1 := by
  rw [frk2_ok, compute_frk2_isSome]

theorem reads_ok_eq (env : Env) (buf : List Nat) :
    (read_eps_words env 8 0 buf).1 = !eps_read_fails env := by
  rw [Bool.eq_iff_iff, read_eps_words_ok]
  simp only [Bool.not_eq_true', eps_read_fails]
  rw [Bool.eq_false_iff]
  simp [List.any_eq_true, Option.isNone_iff_eq_none, Option.isSome_iff_ne_none]

theorem gde_infoOpen (env : Env) (buf : List Nat) :
    (get_decrypted_eps env buf).infoOpen = (frk2_ok env && eps_read_fails env) := by
  unfold get_decrypted_eps
  rcases hc : compute_frk2 env with ⟨fo, tr⟩
  have hok : frk2_ok env = fo.isSome := by rw [frk2_ok, hc]
  cases fo with
  | none => simp [hok]
  | some frk2 =>
    simp only []
    have hr := reads_ok_eq env buf
    split
    · rename_i h1
      rw [h1] at hr
      have he : eps_read_fails env = false := by simpa using hr.symm
      simp [hok, he]
    · rename_i h1
      rw [Bool.not_eq_true] at h1
      rw [h1] at hr
      have he : eps_read_fails env = true := by simpa using hr.symm
      simp [hok, he]

theorem gde_ok (env : Env) (buf : List Nat) :
    (get_decrypted_eps env buf).ok = (frk2_ok env && !eps_read_fails env) := by
  unfold get_decrypted_eps
  rcases hc : compute_frk2 env with ⟨fo, tr⟩
  have hok : frk2_ok env = fo.isSome := by rw [frk2_ok, hc]
  cases fo with
  | none => simp [hok]
  | some frk2 =>
    simp only []
    have hr := reads_ok_eq env buf
    split
    · rename_i h1
      rw [h1] at hr
      simp [hok, ← hr]
    · rename_i h1
      rw [Bool.not_eq_true] at h1
      rw [h1] at hr
      simp [hok, ← hr]

/-! ## Trace-content lemmas -/

theorem run_ladder_events (env : Env) :
    ∀ (l : List Nat) (n : Nat), ∀ e ∈ (run_ladder env n l).2, benign e := by
  intro l
  induction l with
  | nil => intro n e he; simp [run_ladder] at he
  | cons c rest ih =>
    intro n
    simp only [run_ladder, hw_key_ladder_step]
    cases h : env.faults n
    · simp only [Bool.false_eq_true, if_false, List.forall_mem_append, List.forall_mem_cons]
      exact ⟨⟨⟨rfl, by intro hx; cases hx⟩, ⟨rfl, by intro hx; cases hx⟩,
        ⟨rfl, by intro hx; cases hx⟩, ⟨rfl, by intro hx; cases hx⟩,
        by intro x hx; cases hx⟩, ih (n + 1)⟩
    · simp only [if_true, List.forall_mem_cons]
      exact ⟨⟨rfl, by intro hx; cases hx⟩, ⟨rfl, by intro hx; cases hx⟩,
        ⟨rfl, by intro hx; cases hx⟩, ⟨rfl, by intro hx; cases hx⟩,
        by intro x hx; cases hx⟩

theorem read_eps_words_events (env : Env) :
    ∀ (k i : Nat) (buf : List Nat), ∀ e ∈ (read_eps_words env k i buf).2.2, benign e := by
  intro k
  induction k with
  | zero => intro i buf e he; simp [read_eps_words] at he
  | succ m ih =>
    intro i buf
    simp only [read_eps_words]
    cases hw : env.flashWord i with
    | none =>
      simp only [List.forall_mem_cons]
      exact ⟨⟨rfl, by intro hx; cases hx⟩, by intro x hx; cases hx⟩
    | some w =>
      simp only [List.forall_mem_cons]
      exact ⟨⟨rfl, by intro hx; cases hx⟩, ih (i + 1) _⟩

/-- Every event a `get_decrypted_eps` call emits is a key-ladder register
write, a flash-window register write or a flash read: in particular it is not
an NV-store operation and not the HMAC comparison. -/
theorem gde_events (env : Env) (buf : List Nat) :
    ∀ e ∈ (get_decrypted_eps env buf).trace, benign e := by
  have htr : ∀ x ∈ (compute_frk2 env).2, benign x := by
    rw [compute_frk2_trace]
    simp only [List.forall_mem_cons]
    exact ⟨⟨rfl, by intro hx; cases hx⟩, run_ladder_events env ladder_sequence 0⟩
  unfold get_decrypted_eps
  rcases hc : compute_frk2 env with ⟨fo, tr⟩
  rw [hc] at htr
  replace htr : ∀ x ∈ tr, benign x := htr
  cases fo with
  | none => exact htr
  | some frk2 =>
    simp only []
    split
    · simp only [List.forall_mem_append, List.forall_mem_cons]
      exact ⟨⟨htr, ⟨rfl, by intro hx; cases hx⟩, read_eps_words_events env 8 0 buf⟩,
        ⟨rfl, by intro hx; cases hx⟩, by intro x hx; cases hx⟩
    · simp only [List.forall_mem_append, List.forall_mem_cons]
      exact ⟨htr, ⟨rfl, by intro hx; cases hx⟩, read_eps_words_events env 8 0 buf⟩

/-- Branch characterization of `tpm_endorse`: exactly one of the eleven exit
paths is taken, and in each case the conditions that led there hold and the
full output is given explicitly. -/
theorem endorse_cases (env : Env) (eps0 : Nat → Nat) :
    (first_flash_word env = 4294967295 ∧
      tpm_endorse env eps0 =
        ⟨0, init_eps_buf eps0, Path.unprovisioned, [Ev.certRegionEnable], false, true⟩)
    ∨ (¬ first_flash_word env = 4294967295 ∧ (gde_at env eps0).ok = false ∧
      tpm_endorse env eps0 = ⟨0, (gde_at env eps0).eps, Path.epsFail,
          Ev.certRegionEnable :: (gde_at env eps0).trace, (gde_at env eps0).infoOpen, true⟩)
    ∨ (¬ first_flash_word env = 4294967295 ∧ (gde_at env eps0).ok = true ∧
       2048 < (32 + rsa_cert_len env) % U32 ∧
      tpm_endorse env eps0 = ⟨0, (gde_at env eps0).eps, Path.boundsRsa,
          Ev.certRegionEnable :: (gde_at env eps0).trace, (gde_at env eps0).infoOpen, true⟩)
    ∨ (¬ first_flash_word env = 4294967295 ∧ (gde_at env eps0).ok = true ∧
       ¬ 2048 < (32 + rsa_cert_len env) % U32 ∧
       2048 < (32 + rsa_cert_len env + ecc_cert_len env) % U32 ∧
      tpm_endorse env eps0 = ⟨0, (gde_at env eps0).eps, Path.boundsEcc,
          Ev.certRegionEnable :: (gde_at env eps0).trace, (gde_at env eps0).infoOpen, true⟩)
    ∨ (¬ first_flash_word env = 4294967295 ∧ (gde_at env eps0).ok = true ∧
       ¬ 2048 < (32 + rsa_cert_len env) % U32 ∧
       ¬ 2048 < (32 + rsa_cert_len env + ecc_cert_len env) % U32 ∧
       rsa_cert_type env ≠ CROS_PERSO_COMPONENT_TYPE_RSA_CERT ∧
      tpm_endorse env eps0 = ⟨0, (gde_at env eps0).eps, Path.rsaType,
          Ev.certRegionEnable :: (gde_at env eps0).trace, (gde_at env eps0).infoOpen, true⟩)
    ∨ (¬ first_flash_word env = 4294967295 ∧ (gde_at env eps0).ok = true ∧
       ¬ 2048 < (32 + rsa_cert_len env) % U32 ∧
       ¬ 2048 < (32 + rsa_cert_len env + ecc_cert_len env) % U32 ∧
       rsa_cert_type env = CROS_PERSO_COMPONENT_TYPE_RSA_CERT ∧
       ecc_cert_type env ≠ CROS_PERSO_COMPONENT_TYPE_P256_CERT ∧
      tpm_endorse env eps0 = ⟨0, (gde_at env eps0).eps, Path.eccType,
          Ev.certRegionEnable :: (gde_at env eps0).trace, (gde_at env eps0).infoOpen, true⟩)
    ∨ (¬ first_flash_word env = 4294967295 ∧ (gde_at env eps0).ok = true ∧
       ¬ 2048 < (32 + rsa_cert_len env) % U32 ∧
       ¬ 2048 < (32 + rsa_cert_len env + ecc_cert_len env) % U32 ∧
       rsa_cert_type env = CROS_PERSO_COMPONENT_TYPE_RSA_CERT ∧
       ecc_cert_type env = CROS_PERSO_COMPONENT_TYPE_P256_CERT ∧
       ¬ region_hmac_ok env (gde_at env eps0).eps ∧
      tpm_endorse env eps0 = ⟨0, zeros32, Path.fallback,
        hmac_trace env eps0 ++ (install_fixed_certs env 0).trace,
        (gde_at env eps0).infoOpen, true⟩)
    ∨ (¬ first_flash_word env = 4294967295 ∧ (gde_at env eps0).ok = true ∧
       ¬ 2048 < (32 + rsa_cert_len env) % U32 ∧
       ¬ 2048 < (32 + rsa_cert_len env + ecc_cert_len env) % U32 ∧
       rsa_cert_type env = CROS_PERSO_COMPONENT_TYPE_RSA_CERT ∧
       ecc_cert_type env = CROS_PERSO_COMPONENT_TYPE_P256_CERT ∧
       region_hmac_ok env (gde_at env eps0).eps ∧
       (rsa_handle env eps0).1 = false ∧
      tpm_endorse env eps0 = ⟨0, zeros32, Path.rsaHandleFail,
        hmac_trace env eps0 ++ (rsa_handle env eps0).2.1,
        (gde_at env eps0).infoOpen, true⟩)
    ∨ (¬ first_flash_word env = 4294967295 ∧ (gde_at env eps0).ok = true ∧
       ¬ 2048 < (32 + rsa_cert_len env) % U32 ∧
       ¬ 2048 < (32 + rsa_cert_len env + ecc_cert_len env) % U32 ∧
       rsa_cert_type env = CROS_PERSO_COMPONENT_TYPE_RSA_CERT ∧
       ecc_cert_type env = CROS_PERSO_COMPONENT_TYPE_P256_CERT ∧
       region_hmac_ok env (gde_at env eps0).eps ∧
       (rsa_handle env eps0).1 = true ∧ (ecc_handle env eps0).1 = false ∧
      tpm_endorse env eps0 = ⟨0, zeros32, Path.eccHandleFail,
        hmac_trace env eps0 ++ (rsa_handle env eps0).2.1 ++ (ecc_handle env eps0).2.1,
        (gde_at env eps0).infoOpen, true⟩)
    ∨ (¬ first_flash_word env = 4294967295 ∧ (gde_at env eps0).ok = true ∧
       ¬ 2048 < (32 + rsa_cert_len env) % U32 ∧
       ¬ 2048 < (32 + rsa_cert_len env + ecc_cert_len env) % U32 ∧
       rsa_cert_type env = CROS_PERSO_COMPONENT_TYPE_RSA_CERT ∧
       ecc_cert_type env = CROS_PERSO_COMPONENT_TYPE_P256_CERT ∧
       region_hmac_ok env (gde_at env eps0).eps ∧
       (rsa_handle env eps0).1 = true ∧ (ecc_handle env eps0).1 = true ∧
       (seal_store env eps0).ok = false ∧
      tpm_endorse env eps0 = ⟨0, zeros32, Path.sealFail,
        hmac_trace env eps0 ++ (rsa_handle env eps0).2.1 ++ (ecc_handle env eps0).2.1
          ++ (seal_store env eps0).trace, (gde_at env eps0).infoOpen, true⟩)
    ∨ (¬ first_flash_word env = 4294967295 ∧ (gde_at env eps0).ok = true ∧
       ¬ 2048 < (32 + rsa_cert_len env) % U32 ∧
       ¬ 2048 < (32 + rsa_cert_len env + ecc_cert_len env) % U32 ∧
       rsa_cert_type env = CROS_PERSO_COMPONENT_TYPE_RSA_CERT ∧
       ecc_cert_type env = CROS_PERSO_COMPONENT_TYPE_P256_CERT ∧
       region_hmac_ok env (gde_at env eps0).eps ∧
       (rsa_handle env eps0).1 = true ∧ (ecc_handle env eps0).1 = true ∧
       (seal_store env eps0).ok = true ∧
      tpm_endorse env eps0 = ⟨1, zeros32, Path.success,
        hmac_trace env eps0 ++ (rsa_handle env eps0).2.1 ++ (ecc_handle env eps0).2.1
          ++ (seal_store env eps0).trace, (gde_at env eps0).infoOpen, true⟩) := by
  by_cases h1 : first_flash_word env = 4294967295
  · exact Or.inl ⟨h1, by rw [tpm_endorse, if_pos h1]⟩
  · by_cases h2 : (gde_at env eps0).ok = false
    · exact Or.inr (Or.inl ⟨h1, h2, by rw [tpm_endorse, if_neg h1, if_pos h2]⟩)
    · have h2t : (gde_at env eps0).ok = true := by simpa using h2
      by_cases h3 : 2048 < (32 + rsa_cert_len env) % U32
      · exact Or.inr (Or.inr (Or.inl ⟨h1, h2t, h3,
          by rw [tpm_endorse, if_neg h1, if_neg h2, if_pos h3]⟩))
      · by_cases h4 : 2048 < (32 + rsa_cert_len env + ecc_cert_len env) % U32
        · exact Or.inr (Or.inr (Or.inr (Or.inl ⟨h1, h2t, h3, h4,
            by rw [tpm_endorse, if_neg h1, if_neg h2, if_neg h3, if_pos h4]⟩)))
        · by_cases h5 : rsa_cert_type env ≠ CROS_PERSO_COMPONENT_TYPE_RSA_CERT
          · exact Or.inr (Or.inr (Or.inr (Or.inr (Or.inl ⟨h1, h2t, h3, h4, h5,
              by rw [tpm_endorse, if_neg h1, if_neg h2, if_neg h3, if_neg h4, if_pos h5]⟩))))
          · have h5p : rsa_cert_type env = CROS_PERSO_COMPONENT_TYPE_RSA_CERT := of_not_not h5
            by_cases h6 : ecc_cert_type env ≠ CROS_PERSO_COMPONENT_TYPE_P256_CERT
            · exact Or.inr (Or.inr (Or.inr (Or.inr (Or.inr (Or.inl ⟨h1, h2t, h3, h4, h5p, h6,
                by rw [tpm_endorse, if_neg h1, if_neg h2, if_neg h3, if_neg h4, if_neg h5,
                  if_pos h6]⟩)))))
            · have h6p : ecc_cert_type env = CROS_PERSO_COMPONENT_TYPE_P256_CERT := of_not_not h6
              by_cases h7 : region_hmac_ok env (gde_at env eps0).eps
              · by_cases h8 : (rsa_handle env eps0).1 = true
                · by_cases h9 : (ecc_handle env eps0).1 = true
                  · by_cases h10 : (seal_store env eps0).ok = true
                    · refine Or.inr (Or.inr (Or.inr (Or.inr (Or.inr (Or.inr (Or.inr (Or.inr
                        (Or.inr (Or.inr ⟨h1, h2t, h3, h4, h5p, h6p, h7, h8, h9, h10, ?_⟩)))))))))
                      rw [tpm_endorse, if_neg h1, if_neg h2, if_neg h3, if_neg h4, if_neg h5,
                        if_neg h6, if_pos h7, if_pos h8, if_pos h9, if_pos h10]
                    · have h10f : (seal_store env eps0).ok = false := by simpa using h10
                      refine Or.inr (Or.inr (Or.inr (Or.inr (Or.inr (Or.inr (Or.inr (Or.inr
                        (Or.inr (Or.inl ⟨h1, h2t, h3, h4, h5p, h6p, h7, h8, h9, h10f, ?_⟩)))))))))
                      rw [tpm_endorse, if_neg h1, if_neg h2, if_neg h3, if_neg h4, if_neg h5,
                        if_neg h6, if_pos h7, if_pos h8, if_pos h9, if_neg h10]
                  · have h9f : (ecc_handle env eps0).1 = false := by simpa using h9
                    refine Or.inr (Or.inr (Or.inr (Or.inr (Or.inr (Or.inr (Or.inr (Or.inr
                      (Or.inl ⟨h1, h2t, h3, h4, h5p, h6p, h7, h8, h9f, ?_⟩))))))))
                    rw [tpm_endorse, if_neg h1, if_neg h2, if_neg h3, if_neg h4, if_neg h5,
                      if_neg h6, if_pos h7, if_pos h8, if_neg h9]
                · have h8f : (rsa_handle env eps0).1 = false := by simpa using h8
                  refine Or.inr (Or.inr (Or.inr (Or.inr (Or.inr (Or.inr (Or.inr
                    (Or.inl ⟨h1, h2t, h3, h4, h5p, h6p, h7, h8f, ?_⟩)))))))
                  rw [tpm_endorse, if_neg h1, if_neg h2, if_neg h3, if_neg h4, if_neg h5,
                    if_neg h6, if_pos h7, if_neg h8]
              · refine Or.inr (Or.inr (Or.inr (Or.inr (Or.inr (Or.inr
                  (Or.inl ⟨h1, h2t, h3, h4, h5p, h6p, h7, ?_⟩))))))
                rw [tpm_endorse, if_neg h1, if_neg h2, if_neg h3, if_neg h4, if_neg h5,
                  if_neg h6, if_neg h7]

/-! ## Claim C1 — seed-buffer zeroization -/

/-- C1 (counterexample): the claim "on every exit path of `tpm_endorse` the
in-memory primary-seed buffer is overwritten with zeros before the operation
returns" is false.  In `envBigLen` the run exits at the first bounds check
(`cert_len = 5000`), after seed recovery has filled the buffer, and the
buffer still holds the recovered seed bytes (all 1) — the early `return 0`
bypasses the final `memset(eps, 0, sizeof(eps))`. -/
theorem claim_C1_counterexample :
    (tpm_endorse envBigLen (fun _ => 0)).path = Path.boundsRsa ∧
    (tpm_endorse envBigLen (fun _ => 0)).eps = List.replicate 32 1 ∧
    (tpm_endorse envBigLen (fun _ => 0)).eps ≠ zeros32 := by decide

/-- C1 (amended): the seed buffer is zeroed before return exactly on the exit
paths that reach the do-while block — integrity-failure fallback, certificate
or storage failure, and success; on the bounds-check and component-type
early returns the buffer instead still holds the output of seed recovery. -/
theorem claim_C1 : ∀ (env : Env) (eps0 : Nat → Nat),
    ((tpm_endorse env eps0).path = Path.fallback ∨
     (tpm_endorse env eps0).path = Path.rsaHandleFail ∨
     (tpm_endorse env eps0).path = Path.eccHandleFail ∨
     (tpm_endorse env eps0).path = Path.sealFail ∨
     (tpm_endorse env eps0).path = Path.success →
      (tpm_endorse env eps0).eps = zeros32) ∧
    ((tpm_endorse env eps0).path = Path.boundsRsa ∨
     (tpm_endorse env eps0).path = Path.boundsEcc ∨
     (tpm_endorse env eps0).path = Path.rsaType ∨
     (tpm_endorse env eps0).path = Path.eccType →
      (tpm_endorse env eps0).eps = (gde_at env eps0).eps) := by
  intro env eps0
  rcases endorse_cases env eps0 with
      ⟨h1, he⟩ | ⟨h1, h2, he⟩ | ⟨h1, h2, h3, he⟩ | ⟨h1, h2, h3, h4, he⟩ | ⟨h1, h2, h3, h4, h5, he⟩ | ⟨h1, h2, h3, h4, h5, h6, he⟩ | ⟨h1, h2, h3, h4, h5, h6, h7, he⟩ | ⟨h1, h2, h3, h4, h5, h6, h7, h8, he⟩ | ⟨h1, h2, h3, h4, h5, h6, h7, h8, h9, he⟩ | ⟨h1, h2, h3, h4, h5, h6, h7, h8, h9, h10, he⟩ | ⟨h1, h2, h3, h4, h5, h6, h7, h8, h9, h10, he⟩ <;>
    rw [he] <;> exact ⟨fun h => by first | rfl | (dsimp only at h; simp at h),
      fun h => by first | rfl | (dsimp only at h; simp at h)⟩

/-- C1 (witness): on the success path of `envHappy` the buffer really is
zeroed. -/
theorem claim_C1_witness :
    (tpm_endorse envHappy (fun i => i)).eps = zeros32 :=
  (claim_C1 envHappy (fun i => i)).1 (by decide)

/-! ## Claim C2 — flash read windows -/

/-- C2 (counterexample): the claim that every enabled read window is disabled
again before return is false.  In `envReadFail` the first word read of the
encrypted seed fails, `get_decrypted_eps` returns without calling
`flash_info_read_disable()`, and the info window is still open when
`tpm_endorse` returns; moreover the certificate-region window, enabled at the
start of `tpm_endorse`, is still open at return (the function has no disable
for it at all). -/
theorem claim_C2_counterexample :
    (tpm_endorse envReadFail (fun _ => 0)).path = Path.epsFail ∧
    (tpm_endorse envReadFail (fun _ => 0)).infoOpen = true ∧
    (tpm_endorse envReadFail (fun _ => 0)).certOpen = true := by decide

/-- C2 (amended): the certificate-region window is never disabled — it is
still enabled whenever `tpm_endorse` returns; the information-region window
is open at return exactly when the run got past the unprovisioned check, the
key-ladder derivation succeeded, and some word read failed (on the successful
read path it is disabled again). -/
theorem claim_C2 : ∀ (env : Env) (eps0 : Nat → Nat) (buf : List Nat),
    (tpm_endorse env eps0).certOpen = true ∧
    (get_decrypted_eps env buf).infoOpen = (frk2_ok env && eps_read_fails env) ∧
    (tpm_endorse env eps0).infoOpen =
      (!(decide (first_flash_word env = 4294967295)) &&
        (frk2_ok env && eps_read_fails env)) := by
  intro env eps0 buf
  refine ⟨?_, gde_infoOpen env buf, ?_⟩
  · rcases endorse_cases env eps0 with
        ⟨h1, he⟩ | ⟨h1, h2, he⟩ | ⟨h1, h2, h3, he⟩ | ⟨h1, h2, h3, h4, he⟩ | ⟨h1, h2, h3, h4, h5, he⟩ | ⟨h1, h2, h3, h4, h5, h6, he⟩ | ⟨h1, h2, h3, h4, h5, h6, h7, he⟩ | ⟨h1, h2, h3, h4, h5, h6, h7, h8, he⟩ | ⟨h1, h2, h3, h4, h5, h6, h7, h8, h9, he⟩ | ⟨h1, h2, h3, h4, h5, h6, h7, h8, h9, h10, he⟩ | ⟨h1, h2, h3, h4, h5, h6, h7, h8, h9, h10, he⟩ <;>
      rw [he]
  · rcases endorse_cases env eps0 with
        ⟨h1, he⟩ | ⟨h1, h2, he⟩ | ⟨h1, h2, h3, he⟩ | ⟨h1, h2, h3, h4, he⟩ | ⟨h1, h2, h3, h4, h5, he⟩ | ⟨h1, h2, h3, h4, h5, h6, he⟩ | ⟨h1, h2, h3, h4, h5, h6, h7, he⟩ | ⟨h1, h2, h3, h4, h5, h6, h7, h8, he⟩ | ⟨h1, h2, h3, h4, h5, h6, h7, h8, h9, he⟩ | ⟨h1, h2, h3, h4, h5, h6, h7, h8, h9, h10, he⟩ | ⟨h1, h2, h3, h4, h5, h6, h7, h8, h9, h10, he⟩ <;>
      rw [he] <;> simp [h1, gde_at, gde_infoOpen]

/-! ## Claim C3 — bounds checks -/

/-- C3 (counterexample): the claim that passing both sanity checks implies,
in exact arithmetic, that both records fit in the 2048-byte region is false.
With the RSA record declaring `cert_len = 4294967264` the 32-bit sum
`2*sizeof(struct ro_cert) + cert_len` wraps to 0 and both checks pass — the
run proceeds to the component-type check — although the exact sum
`16 + 16 + rsa_len + ecc_len` is 4294967296 > 2048. -/
theorem claim_C3_counterexample :
    ¬(2048 < (32 + rsa_cert_len envWrapLen) % U32) ∧
    ¬(2048 < (32 + rsa_cert_len envWrapLen + ecc_cert_len envWrapLen) % U32) ∧
    2048 < 16 + 16 + rsa_cert_len envWrapLen + ecc_cert_len envWrapLen ∧
    (tpm_endorse envWrapLen (fun _ => 0)).path = Path.rsaType := by decide

/-- C3 (amended): if both sanity checks pass *and* the two 32-bit additions
do not wrap, then the two records together with their 16-byte headers fit in
the 2048-byte region in exact arithmetic. -/
theorem claim_C3 : ∀ env : Env,
    ¬(2048 < (32 + rsa_cert_len env) % U32) →
    ¬(2048 < (32 + rsa_cert_len env + ecc_cert_len env) % U32) →
    32 + rsa_cert_len env < U32 →
    32 + rsa_cert_len env + ecc_cert_len env < U32 →
    16 + 16 + rsa_cert_len env ≤ 2048 ∧
    16 + 16 + rsa_cert_len env + ecc_cert_len env ≤ 2048 := by
  intro env h1 h2 hw1 hw2
  rw [Nat.mod_eq_of_lt hw1] at h1
  rw [Nat.mod_eq_of_lt hw2] at h2
  omega

/-- C3 (witness): with all-zero lengths the amended bound holds. -/
theorem claim_C3_witness :
    16 + 16 + rsa_cert_len envBase ≤ 2048 ∧
    16 + 16 + rsa_cert_len envBase + ecc_cert_len envBase ≤ 2048 :=
  claim_C3 envBase (by decide) (by decide) (by decide) (by decide)

/-! ## Claim C4 — certificate validation -/

/-- C4 (confirmed): `validate_cert` accepts iff the component type is RSA or
P256, `cert_len` is within `MAX_NV_BUFFER_SIZE`, and the signature verifies
against the production or the development root; and an oversize `cert_len` is
rejected with no verification call performed. -/
theorem claim_C4 : ∀ (env : Env) (cert_info : ComponentInfo) (cert : CertResponse)
    (eps : List Nat),
    ((validate_cert env cert_info cert eps).1 = true ↔
      ((cert_info.component_type = CROS_PERSO_COMPONENT_TYPE_RSA_CERT ∨
        cert_info.component_type = CROS_PERSO_COMPONENT_TYPE_P256_CERT) ∧
       cert.cert_len ≤ env.maxNvBufferSize ∧
       (env.verifyProd (cert_bytes cert) = true ∨ env.verifyTest (cert_bytes cert) = true)))
    ∧ (cert.cert_len > env.maxNvBufferSize → (validate_cert env cert_info cert eps).2 = []) := by
  intro env cert_info cert eps
  unfold validate_cert
  by_cases ht : cert_info.component_type ≠ CROS_PERSO_COMPONENT_TYPE_RSA_CERT ∧
      cert_info.component_type ≠ CROS_PERSO_COMPONENT_TYPE_P256_CERT
  · rw [if_pos ht]
    constructor
    · simp
      intro h
      rcases h with h | h
      · exact absurd h ht.1
      · exact absurd h ht.2
    · intro _; rfl
  · rw [if_neg ht]
    have ht2 : cert_info.component_type = CROS_PERSO_COMPONENT_TYPE_RSA_CERT ∨
        cert_info.component_type = CROS_PERSO_COMPONENT_TYPE_P256_CERT := by
      rcases Decidable.not_and_iff_or_not.mp ht with h | h
      · exact Or.inl (of_not_not h)
      · exact Or.inr (of_not_not h)
    by_cases hl : cert.cert_len > env.maxNvBufferSize
    · rw [if_pos hl]
      constructor
      · simp
        intro h
        omega
      · intro _; rfl
    · rw [if_neg hl]
      have hle : cert.cert_len ≤ env.maxNvBufferSize := Nat.le_of_not_lt hl
      constructor
      · by_cases hp : env.verifyProd (cert_bytes cert) = true
        · rw [if_pos hp]
          simp [ht2, hle, hp]
        · rw [if_neg hp]
          simp only [Bool.not_eq_true] at hp
          simp [ht2, hle, hp]
      · intro hgt; exact absurd hgt hl

/-- C4 (witness): a certificate whose `cert_len` (2000) exceeds the buffer
bound (1024) is rejected without any verification call. -/
theorem claim_C4_witness :
    (validate_cert envBase ⟨0, 129, []⟩ ⟨[], 2000, fun k => k⟩ []).2 = [] :=
  (claim_C4 envBase ⟨0, 129, []⟩ ⟨[], 2000, fun k => k⟩ []).2 (by decide)

/-! ## Claim C5 — key ladder sequencing -/

/-- C5 (confirmed): `compute_frk2` resets the engine and then performs the
ordered step sequence 0, 3, 4, 5, 7, 15, 20, then step 25 repeated
`k_cr50_max_fw_major_version - K_CROS_FW_MAJOR_VERSION = 254` times, then
step 26; each executed step clears the completion-status register before
triggering and again after completion; a fault at any step aborts the
sequence immediately (the executed steps are exactly the prefix through the
faulting step) and the derivation reports failure. -/
theorem claim_C5 : ∀ env : Env,
    ladder_sequence = [0, 3, 4, 5, 7, 15, 20] ++ List.replicate 254 25 ++ [26]
    ∧ k_cr50_max_fw_major_version - K_CROS_FW_MAJOR_VERSION = 254
    ∧ (compute_frk2 env).2 =
        Ev.shaReset :: ((steps_until_fault env 0 ladder_sequence).map stepEvents).flatten
    ∧ (∀ c, stepEvents c = [Ev.itopClear, Ev.certSelect c, Ev.shaTrig, Ev.itopClear])
    ∧ ((compute_frk2 env).1.isSome = true ↔ ∀ i < ladder_sequence.length, env.faults i = false)
    ∧ ((∀ i < ladder_sequence.length, env.faults i = false) →
        steps_until_fault env 0 ladder_sequence = ladder_sequence)
    ∧ (∀ k < ladder_sequence.length, env.faults k = true →
        (∀ j < k, env.faults j = false) →
        steps_until_fault env 0 ladder_sequence = ladder_sequence.take (k + 1) ∧
          (compute_frk2 env).1 = none) := by
  intro env
  have hok : (compute_frk2 env).1.isSome = true ↔
      ∀ i < ladder_sequence.length, env.faults i = false := by
    rw [compute_frk2_isSome]
    have h := run_ladder_ok env ladder_sequence 0
    simpa using h
  refine ⟨rfl, rfl, ?_, fun c => rfl, hok, ?_, ?_⟩
  · rw [compute_frk2_trace, run_ladder_trace]
  · intro hall
    apply steps_until_fault_no_fault
    intro i hi
    simpa using hall i hi
  · intro k hk hf hb
    constructor
    · apply steps_until_fault_take env ladder_sequence 0 k hk (by simpa using hf)
      intro j hj
      simpa using hb j hj
    · have hns : ¬ ∀ i < ladder_sequence.length, env.faults i = false := by
        intro hall
        rw [hall k hk] at hf
        cases hf
      have : ¬ (compute_frk2 env).1.isSome = true := fun hs => hns (hok.mp hs)
      simpa [Option.not_isSome_iff_eq_none] using this

set_option maxRecDepth 4000 in
/-- C5 (witness): with a fault at step position 3 only the first four steps
(certs 0, 3, 4, 5) execute and the derivation fails. -/
theorem claim_C5_witness :
    steps_until_fault envLadderFault 0 ladder_sequence = ladder_sequence.take 4 ∧
      (compute_frk2 envLadderFault).1 = none :=
  (claim_C5 envLadderFault).2.2.2.2.2.2 3 (by decide) (by decide) (by decide)

/-! ## Direct branch-equation helpers -/

theorem endorse_fallback_eq (env : Env) (eps0 : Nat → Nat)
    (h1 : ¬ first_flash_word env = 4294967295)
    (h2 : (gde_at env eps0).ok = true)
    (h3 : ¬ 2048 < (32 + rsa_cert_len env) % U32)
    (h4 : ¬ 2048 < (32 + rsa_cert_len env + ecc_cert_len env) % U32)
    (h5 : rsa_cert_type env = CROS_PERSO_COMPONENT_TYPE_RSA_CERT)
    (h6 : ecc_cert_type env = CROS_PERSO_COMPONENT_TYPE_P256_CERT)
    (h7 : ¬ region_hmac_ok env (gde_at env eps0).eps) :
    tpm_endorse env eps0 = ⟨0, zeros32, Path.fallback,
      hmac_trace env eps0 ++ (install_fixed_certs env 0).trace,
      (gde_at env eps0).infoOpen, true⟩ := by
  rw [tpm_endorse, if_neg h1, if_neg (by simp [h2] : ¬ (gde_at env eps0).ok = false),
    if_neg h3, if_neg h4, if_neg (not_not_intro h5), if_neg (not_not_intro h6), if_neg h7]

theorem endorse_rsaType_eq (env : Env) (eps0 : Nat → Nat)
    (h1 : ¬ first_flash_word env = 4294967295)
    (h2 : (gde_at env eps0).ok = true)
    (h3 : ¬ 2048 < (32 + rsa_cert_len env) % U32)
    (h4 : ¬ 2048 < (32 + rsa_cert_len env + ecc_cert_len env) % U32)
    (h5 : rsa_cert_type env ≠ CROS_PERSO_COMPONENT_TYPE_RSA_CERT) :
    tpm_endorse env eps0 = ⟨0, (gde_at env eps0).eps, Path.rsaType,
      Ev.certRegionEnable :: (gde_at env eps0).trace, (gde_at env eps0).infoOpen, true⟩ := by
  rw [tpm_endorse, if_neg h1, if_neg (by simp [h2] : ¬ (gde_at env eps0).ok = false),
    if_neg h3, if_neg h4, if_pos h5]

theorem endorse_eccType_eq (env : Env) (eps0 : Nat → Nat)
    (h1 : ¬ first_flash_word env = 4294967295)
    (h2 : (gde_at env eps0).ok = true)
    (h3 : ¬ 2048 < (32 + rsa_cert_len env) % U32)
    (h4 : ¬ 2048 < (32 + rsa_cert_len env + ecc_cert_len env) % U32)
    (h5 : rsa_cert_type env = CROS_PERSO_COMPONENT_TYPE_RSA_CERT)
    (h6 : ecc_cert_type env ≠ CROS_PERSO_COMPONENT_TYPE_P256_CERT) :
    tpm_endorse env eps0 = ⟨0, (gde_at env eps0).eps, Path.eccType,
      Ev.certRegionEnable :: (gde_at env eps0).trace, (gde_at env eps0).infoOpen, true⟩ := by
  rw [tpm_endorse, if_neg h1, if_neg (by simp [h2] : ¬ (gde_at env eps0).ok = false),
    if_neg h3, if_neg h4, if_neg (not_not_intro h5), if_pos h6]

/-! ## Store-trace lemmas -/

theorem store_eps_events (env : Env) (c0 : Nat) (s : List Nat) :
    ∀ e ∈ (store_eps env c0 s).trace,
      e = Ev.nvWriteReserved s ∨ ∃ n, e = Ev.nvCommit n := by
  intro e he
  simp only [store_eps, List.mem_cons, List.not_mem_nil, or_false] at he
  rcases he with rfl | rfl
  · exact Or.inl rfl
  · exact Or.inr ⟨c0, rfl⟩

theorem store_cert_events (env : Env) (c0 : Nat) (t : Nat) (cert : List Nat) (len : Nat) :
    ∀ e ∈ (store_cert env c0 t cert len).trace,
      e = Ev.hierarchyStartup ∨ (∃ i, e = Ev.nvDefine i len) ∨
        (∃ i, e = Ev.nvWrite i (cert.take len)) ∨ ∃ n, e = Ev.nvCommit n := by
  intro e he
  unfold store_cert at he
  split at he
  · split at he
    · simp only [List.mem_cons, List.not_mem_nil, or_false] at he
      rcases he with rfl | rfl | rfl | rfl
      · exact Or.inl rfl
      · exact Or.inr (Or.inl ⟨_, rfl⟩)
      · exact Or.inr (Or.inr (Or.inl ⟨_, rfl⟩))
      · exact Or.inr (Or.inr (Or.inr ⟨_, rfl⟩))
    · simp only [List.mem_cons, List.not_mem_nil, or_false] at he
      rcases he with rfl | rfl | rfl
      · exact Or.inl rfl
      · exact Or.inr (Or.inl ⟨_, rfl⟩)
      · exact Or.inr (Or.inr (Or.inl ⟨_, rfl⟩))
  · simp only [List.mem_cons, List.not_mem_nil, or_false] at he
    rcases he with rfl | rfl
    · exact Or.inl rfl
    · exact Or.inr (Or.inl ⟨_, rfl⟩)

theorem fixed_cert_take_rsa :
    FIXED_RSA_ENDORSEMENT_CERT.take FIXED_RSA_ENDORSEMENT_CERT.length =
      FIXED_RSA_ENDORSEMENT_CERT := List.take_length _

theorem fixed_cert_take_ecc :
    FIXED_ECC_ENDORSEMENT_CERT.take FIXED_ECC_ENDORSEMENT_CERT.length =
      FIXED_ECC_ENDORSEMENT_CERT := List.take_length _

/-- Every event `install_fixed_certs` emits is one of: the fixed-seed
reserved write, a commit, `HierarchyStartup`, an NV define, a write of the
fixed RSA certificate, or a write of the fixed ECC certificate. -/
theorem install_fixed_events (env : Env) (c0 : Nat) :
    ∀ e ∈ (install_fixed_certs env c0).trace,
      e = Ev.nvWriteReserved FIXED_ENDORSEMENT_SEED ∨ e = Ev.hierarchyStartup ∨
        (∃ i l, e = Ev.nvDefine i l) ∨ (∃ n, e = Ev.nvCommit n) ∨
        (∃ i, e = Ev.nvWrite i FIXED_RSA_ENDORSEMENT_CERT) ∨
        (∃ i, e = Ev.nvWrite i FIXED_ECC_ENDORSEMENT_CERT) := by
  have hseed : ∀ e ∈ (fixed_seed_store env c0).trace,
      e = Ev.nvWriteReserved FIXED_ENDORSEMENT_SEED ∨ e = Ev.hierarchyStartup ∨
        (∃ i l, e = Ev.nvDefine i l) ∨ (∃ n, e = Ev.nvCommit n) ∨
        (∃ i, e = Ev.nvWrite i FIXED_RSA_ENDORSEMENT_CERT) ∨
        (∃ i, e = Ev.nvWrite i FIXED_ECC_ENDORSEMENT_CERT) := by
    intro e he
    rcases store_eps_events env c0 FIXED_ENDORSEMENT_SEED e he with rfl | ⟨n, rfl⟩
    · exact Or.inl rfl
    · exact Or.inr (Or.inr (Or.inr (Or.inl ⟨n, rfl⟩)))
  have hrsa : ∀ e ∈ (fixed_rsa_store env c0).trace,
      e = Ev.nvWriteReserved FIXED_ENDORSEMENT_SEED ∨ e = Ev.hierarchyStartup ∨
        (∃ i l, e = Ev.nvDefine i l) ∨ (∃ n, e = Ev.nvCommit n) ∨
        (∃ i, e = Ev.nvWrite i FIXED_RSA_ENDORSEMENT_CERT) ∨
        (∃ i, e = Ev.nvWrite i FIXED_ECC_ENDORSEMENT_CERT) := by
    intro e he
    rcases store_cert_events env _ _ _ _ e he with rfl | ⟨i, rfl⟩ | ⟨i, hw⟩ | ⟨n, rfl⟩
    · exact Or.inr (Or.inl rfl)
    · exact Or.inr (Or.inr (Or.inl ⟨i, _, rfl⟩))
    · rw [fixed_cert_take_rsa] at hw
      exact Or.inr (Or.inr (Or.inr (Or.inr (Or.inl ⟨i, hw⟩))))
    · exact Or.inr (Or.inr (Or.inr (Or.inl ⟨n, rfl⟩)))
  have hecc : ∀ e ∈ (fixed_ecc_store env c0).trace,
      e = Ev.nvWriteReserved FIXED_ENDORSEMENT_SEED ∨ e = Ev.hierarchyStartup ∨
        (∃ i l, e = Ev.nvDefine i l) ∨ (∃ n, e = Ev.nvCommit n) ∨
        (∃ i, e = Ev.nvWrite i FIXED_RSA_ENDORSEMENT_CERT) ∨
        (∃ i, e = Ev.nvWrite i FIXED_ECC_ENDORSEMENT_CERT) := by
    intro e he
    rcases store_cert_events env _ _ _ _ e he with rfl | ⟨i, rfl⟩ | ⟨i, hw⟩ | ⟨n, rfl⟩
    · exact Or.inr (Or.inl rfl)
    · exact Or.inr (Or.inr (Or.inl ⟨i, _, rfl⟩))
    · rw [fixed_cert_take_ecc] at hw
      exact Or.inr (Or.inr (Or.inr (Or.inr (Or.inr ⟨i, hw⟩))))
    · exact Or.inr (Or.inr (Or.inr (Or.inl ⟨n, rfl⟩)))
  intro e he
  unfold install_fixed_certs at he
  split at he
  · split at he
    · rcases List.mem_append.mp he with he2 | he2
      · rcases List.mem_append.mp he2 with he3 | he3
        · exact hseed e he3
        · exact hrsa e he3
      · exact hecc e he2
    · rcases List.mem_append.mp he with he2 | he2
      · exact hseed e he2
      · exact hrsa e he2
  · exact hseed e he

/-! ## Claim C6 — region-integrity check -/

/-- C6 (counterexample): the claim includes "flipping any single bit of the
covered bytes makes the check fail".  The HMAC primitive is a collaborator
outside this source (modelled from the spec as an oracle), and that clause is
not a consequence of the code: with the oracle of `envBase`, `envBitFlip`
differs from `envBase` in exactly one bit of one covered byte (byte 100,
0 versus 1), leaves the stored tag unchanged, and the integrity check passes
in both environments. -/
theorem claim_C6_counterexample :
    region_hmac_ok envBase zeros32 ∧ region_hmac_ok envBitFlip zeros32 ∧
    regionByte envBase 100 = 0 ∧ regionByte envBitFlip 100 = 1 ∧
    stored_tag envBitFlip = stored_tag envBase ∧
    (∀ i < 2048, i ≠ 100 → regionByte envBitFlip i = regionByte envBase i) := by
  refine ⟨by decide, by decide, by decide, by decide, by decide, ?_⟩
  intro i hi hne
  have h1 : (276480 + i) % 4294967296 = 276480 + i := Nat.mod_eq_of_lt (by omega)
  show envBitFlip.mem ((276480 + i) % 4294967296) % 256 =
    envBase.mem ((276480 + i) % 4294967296) % 256
  rw [h1]
  have hm : envBitFlip.mem (276480 + i) = 0 := by
    show (if 276480 + i = 276580 then 1 else 0) = 0
    rw [if_neg (by omega)]
  rw [hm]
  rfl

/-- C6 (amended): the region-integrity check of `tpm_endorse` passes iff the
trailing 32 bytes of the region equal
`HMAC-SHA256(HMAC-SHA256(seed, "RSA"), region[0 : 2016])` — a run that
reaches the check takes the fallback path exactly when that equality fails;
if the trailing tag is constructed by that formula the check passes, and
changing the stored tag while leaving the covered bytes (and the HMAC
collaborator) unchanged makes it fail.  Whether a covered-byte bit flip makes
it fail depends on the HMAC collaborator, not on this code. -/
theorem claim_C6 : ∀ (env : Env) (eps0 : Nat → Nat) (eps : List Nat),
    (¬ first_flash_word env = 4294967295 →
     (gde_at env eps0).ok = true →
     ¬ 2048 < (32 + rsa_cert_len env) % U32 →
     ¬ 2048 < (32 + rsa_cert_len env + ecc_cert_len env) % U32 →
     rsa_cert_type env = CROS_PERSO_COMPONENT_TYPE_RSA_CERT →
     ecc_cert_type env = CROS_PERSO_COMPONENT_TYPE_P256_CERT →
     ((tpm_endorse env eps0).path = Path.fallback ↔
       ¬ stored_tag env = env.hmac (env.hmac (gde_at env eps0).eps rsa_label)
          (covered_bytes env)))
    ∧ (region_hmac_ok env eps ↔
        stored_tag env = env.hmac (env.hmac eps rsa_label) (covered_bytes env))
    ∧ (∀ env2 : Env, env2.hmac = env.hmac → covered_bytes env2 = covered_bytes env →
        stored_tag env2 ≠ stored_tag env → region_hmac_ok env eps →
        ¬ region_hmac_ok env2 eps) := by
  intro env eps0 eps
  refine ⟨?_, Iff.rfl, ?_⟩
  · intro h1 h2 h3 h4 h5 h6
    by_cases h7 : region_hmac_ok env (gde_at env eps0).eps
    · have h7e : stored_tag env =
          env.hmac (env.hmac (gde_at env eps0).eps rsa_label) (covered_bytes env) := h7
      rcases endorse_cases env eps0 with
          ⟨g1, he⟩ | ⟨g1, g2, he⟩ | ⟨g1, g2, g3, he⟩ | ⟨g1, g2, g3, g4, he⟩ | ⟨g1, g2, g3, g4, g5, he⟩ | ⟨g1, g2, g3, g4, g5, g6, he⟩ | ⟨g1, g2, g3, g4, g5, g6, g7, he⟩ | ⟨g1, g2, g3, g4, g5, g6, g7, g8, he⟩ | ⟨g1, g2, g3, g4, g5, g6, g7, g8, g9, he⟩ | ⟨g1, g2, g3, g4, g5, g6, g7, g8, g9, g10, he⟩ | ⟨g1, g2, g3, g4, g5, g6, g7, g8, g9, g10, he⟩
      · exact absurd g1 h1
      · rw [h2] at g2; cases g2
      · exact absurd g3 h3
      · exact absurd g4 h4
      · exact absurd h5 g5
      · exact absurd h6 g6
      · exact absurd h7 g7
      all_goals rw [he]
      all_goals constructor
      all_goals intro hx
      · cases hx
      · exact absurd h7e hx
      · cases hx
      · exact absurd h7e hx
      · cases hx
      · exact absurd h7e hx
      · cases hx
      · exact absurd h7e hx
    · rw [endorse_fallback_eq env eps0 h1 h2 h3 h4 h5 h6 h7]
      exact ⟨fun _ => h7, fun _ => rfl⟩
  · intro env2 hh hc hs hok
    unfold region_hmac_ok hmac_formula at *
    rw [hh, hc]
    intro h2
    exact hs (h2.trans hok.symm)

/-- C6 (witness): in `envFallbackW` the run reaches the check, the stored tag
(32 zero bytes) differs from the oracle output `[1]`, and the fallback path
is taken. -/
theorem claim_C6_witness :
    (tpm_endorse envFallbackW (fun _ => 0)).path = Path.fallback ↔
      ¬ stored_tag envFallbackW =
        envFallbackW.hmac
          (envFallbackW.hmac (gde_at envFallbackW (fun _ => 0)).eps rsa_label)
          (covered_bytes envFallbackW) :=
  (claim_C6 envFallbackW (fun _ => 0) []).1 (by decide) (by decide) (by decide)
    (by decide) (by decide) (by decide)

/-! ## Claim C7 — integrity-failure fallback -/

/-- C7 (confirmed): when a run reaches the integrity check and the check
fails, `tpm_endorse` returns 0 on the fallback path; its trace after the
check is exactly the trace of `install_fixed_certs` (the same seed-store and
certificate-store interfaces as the normal path), and every reserved-seed
write in it carries the fixed fallback seed and every NV certificate write
carries one of the two fixed fallback certificates — no factory certificate
and no recovered seed is stored. -/
theorem claim_C7 : ∀ (env : Env) (eps0 : Nat → Nat),
    ¬ first_flash_word env = 4294967295 →
    (gde_at env eps0).ok = true →
    ¬ 2048 < (32 + rsa_cert_len env) % U32 →
    ¬ 2048 < (32 + rsa_cert_len env + ecc_cert_len env) % U32 →
    rsa_cert_type env = CROS_PERSO_COMPONENT_TYPE_RSA_CERT →
    ecc_cert_type env = CROS_PERSO_COMPONENT_TYPE_P256_CERT →
    ¬ region_hmac_ok env (gde_at env eps0).eps →
    (tpm_endorse env eps0).result = 0
    ∧ (tpm_endorse env eps0).path = Path.fallback
    ∧ (tpm_endorse env eps0).trace =
        Ev.certRegionEnable :: (gde_at env eps0).trace ++ [Ev.hmacCheck]
          ++ (install_fixed_certs env 0).trace
    ∧ (∀ d, Ev.nvWriteReserved d ∈ (install_fixed_certs env 0).trace →
        d = FIXED_ENDORSEMENT_SEED)
    ∧ (∀ i d, Ev.nvWrite i d ∈ (install_fixed_certs env 0).trace →
        d = FIXED_RSA_ENDORSEMENT_CERT ∨ d = FIXED_ECC_ENDORSEMENT_CERT) := by
  intro env eps0 h1 h2 h3 h4 h5 h6 h7
  rw [endorse_fallback_eq env eps0 h1 h2 h3 h4 h5 h6 h7]
  refine ⟨rfl, rfl, by simp [hmac_trace], ?_, ?_⟩
  · intro d hd
    rcases install_fixed_events env 0 _ hd with h | h | ⟨i, l, h⟩ | ⟨n, h⟩ | ⟨i, h⟩ | ⟨i, h⟩
    · injection h
    · cases h
    · cases h
    · cases h
    · cases h
    · cases h
  · intro i d hd
    rcases install_fixed_events env 0 _ hd with h | h | ⟨j, l, h⟩ | ⟨n, h⟩ | ⟨j, h⟩ | ⟨j, h⟩
    · cases h
    · cases h
    · cases h
    · cases h
    · injection h with hji hjd; exact Or.inl hjd
    · injection h with hji hjd; exact Or.inr hjd

/-- C7 (witness): `envFallbackW` drives the fallback; applying the theorem at
it yields the result value and the trace decomposition. -/
theorem claim_C7_witness :
    (tpm_endorse envFallbackW (fun _ => 0)).result = 0
    ∧ (tpm_endorse envFallbackW (fun _ => 0)).path = Path.fallback
    ∧ (tpm_endorse envFallbackW (fun _ => 0)).trace =
        Ev.certRegionEnable :: (gde_at envFallbackW (fun _ => 0)).trace ++ [Ev.hmacCheck]
          ++ (install_fixed_certs envFallbackW 0).trace
    ∧ (∀ d, Ev.nvWriteReserved d ∈ (install_fixed_certs envFallbackW 0).trace →
        d = FIXED_ENDORSEMENT_SEED)
    ∧ (∀ i d, Ev.nvWrite i d ∈ (install_fixed_certs envFallbackW 0).trace →
        d = FIXED_RSA_ENDORSEMENT_CERT ∨ d = FIXED_ECC_ENDORSEMENT_CERT) :=
  claim_C7 envFallbackW (fun _ => 0) (by decide) (by decide) (by decide) (by decide)
    (by decide) (by decide) (by decide)

/-! ## Claim C8 — component-type mismatch -/

/-- C8 (confirmed): if a run passes the unprovisioned check, seed recovery
and both bounds checks, but the RSA record's component type is not the RSA
type or the ECC record's is not the P256 type, then `tpm_endorse` returns 0
from the type-check exits, the HMAC comparison never happens, no fallback is
installed, and no NV define, write or commit is performed. -/
theorem claim_C8 : ∀ (env : Env) (eps0 : Nat → Nat),
    ¬ first_flash_word env = 4294967295 →
    (gde_at env eps0).ok = true →
    ¬ 2048 < (32 + rsa_cert_len env) % U32 →
    ¬ 2048 < (32 + rsa_cert_len env + ecc_cert_len env) % U32 →
    (rsa_cert_type env ≠ CROS_PERSO_COMPONENT_TYPE_RSA_CERT ∨
      ecc_cert_type env ≠ CROS_PERSO_COMPONENT_TYPE_P256_CERT) →
    (tpm_endorse env eps0).result = 0
    ∧ ((tpm_endorse env eps0).path = Path.rsaType ∨
        (tpm_endorse env eps0).path = Path.eccType)
    ∧ Ev.hmacCheck ∉ (tpm_endorse env eps0).trace
    ∧ (∀ e ∈ (tpm_endorse env eps0).trace, isNvEv e = false) := by
  intro env eps0 h1 h2 h3 h4 h5
  have main : tpm_endorse env eps0 = ⟨0, (gde_at env eps0).eps, Path.rsaType,
        Ev.certRegionEnable :: (gde_at env eps0).trace, (gde_at env eps0).infoOpen, true⟩
      ∨ tpm_endorse env eps0 = ⟨0, (gde_at env eps0).eps, Path.eccType,
        Ev.certRegionEnable :: (gde_at env eps0).trace, (gde_at env eps0).infoOpen, true⟩ := by
    by_cases hr : rsa_cert_type env ≠ CROS_PERSO_COMPONENT_TYPE_RSA_CERT
    · exact Or.inl (endorse_rsaType_eq env eps0 h1 h2 h3 h4 hr)
    · have hrp := of_not_not hr
      have hep : ecc_cert_type env ≠ CROS_PERSO_COMPONENT_TYPE_P256_CERT := by
        rcases h5 with h5 | h5
        · exact absurd hrp h5
        · exact h5
      exact Or.inr (endorse_eccType_eq env eps0 h1 h2 h3 h4 hrp hep)
  have htr : ∀ e ∈ Ev.certRegionEnable :: (gde_at env eps0).trace, benign e := by
    intro e he
    rcases List.mem_cons.mp he with rfl | he2
    · exact ⟨rfl, by intro hx; cases hx⟩
    · exact gde_events env (init_eps_buf eps0) e he2
  rcases main with he | he <;> rw [he]
  · exact ⟨rfl, Or.inl rfl, fun hm => (htr _ hm).2 rfl, fun e hm => (htr e hm).1⟩
  · exact ⟨rfl, Or.inr rfl, fun hm => (htr _ hm).2 rfl, fun e hm => (htr e hm).1⟩

/-- C8 (witness): in `envBase` the region is all zero, so the RSA record's
component type (0) is wrong; the run returns 0 with no NV event. -/
theorem claim_C8_witness :
    (tpm_endorse envBase (fun _ => 0)).result = 0
    ∧ ((tpm_endorse envBase (fun _ => 0)).path = Path.rsaType ∨
        (tpm_endorse envBase (fun _ => 0)).path = Path.eccType)
    ∧ Ev.hmacCheck ∉ (tpm_endorse envBase (fun _ => 0)).trace
    ∧ (∀ e ∈ (tpm_endorse envBase (fun _ => 0)).trace, isNvEv e = false) :=
  claim_C8 envBase (fun _ => 0) (by decide) (by decide) (by decide) (by decide)
    (Or.inl (by decide))

/-! ## Claim C9 — fallback installation order and opacity -/

/-- C9 (confirmed): `install_fixed_certs` stores the fixed seed first, then
the fixed RSA certificate, then the fixed ECC certificate, stopping at the
first failing store with no later store attempted (the emitted trace is the
concatenation of exactly the attempted stores, in that order); and on the
integrity-failure path `tpm_endorse` returns 0 regardless of whether the
fallback installation succeeded or failed partway. -/
theorem claim_C9 :
    (∀ (env : Env) (c0 : Nat),
      ((fixed_seed_store env c0).trace =
        [Ev.nvWriteReserved FIXED_ENDORSEMENT_SEED, Ev.nvCommit c0])
      ∧ (¬ (fixed_seed_store env c0).ok = true →
          (install_fixed_certs env c0).trace = (fixed_seed_store env c0).trace ∧
          (install_fixed_certs env c0).ok = false)
      ∧ ((fixed_seed_store env c0).ok = true → ¬ (fixed_rsa_store env c0).ok = true →
          (install_fixed_certs env c0).trace =
            (fixed_seed_store env c0).trace ++ (fixed_rsa_store env c0).trace ∧
          (install_fixed_certs env c0).ok = false)
      ∧ ((fixed_seed_store env c0).ok = true → (fixed_rsa_store env c0).ok = true →
          (install_fixed_certs env c0).trace =
            (fixed_seed_store env c0).trace ++ (fixed_rsa_store env c0).trace
              ++ (fixed_ecc_store env c0).trace ∧
          (install_fixed_certs env c0).ok = (fixed_ecc_store env c0).ok))
    ∧ (∀ (env : Env) (eps0 : Nat → Nat),
        ¬ first_flash_word env = 4294967295 →
        (gde_at env eps0).ok = true →
        ¬ 2048 < (32 + rsa_cert_len env) % U32 →
        ¬ 2048 < (32 + rsa_cert_len env + ecc_cert_len env) % U32 →
        rsa_cert_type env = CROS_PERSO_COMPONENT_TYPE_RSA_CERT →
        ecc_cert_type env = CROS_PERSO_COMPONENT_TYPE_P256_CERT →
        ¬ region_hmac_ok env (gde_at env eps0).eps →
        (tpm_endorse env eps0).result = 0) := by
  constructor
  · intro env c0
    refine ⟨rfl, ?_, ?_, ?_⟩
    · intro hs
      rw [install_fixed_certs, if_neg hs]
      exact ⟨rfl, rfl⟩
    · intro hs hr
      rw [install_fixed_certs, if_pos hs, if_neg hr]
      exact ⟨rfl, rfl⟩
    · intro hs hr
      rw [install_fixed_certs, if_pos hs, if_pos hr]
      exact ⟨rfl, rfl⟩
  · intro env eps0 h1 h2 h3 h4 h5 h6 h7
    rw [endorse_fallback_eq env eps0 h1 h2 h3 h4 h5 h6 h7]

/-- C9 (witness): with every commit failing, the seed store fails and the
fallback installation stops after it — only the seed-store events appear. -/
theorem claim_C9_witness :
    (install_fixed_certs envCommitFail 0).trace =
      (fixed_seed_store envCommitFail 0).trace ∧
    (install_fixed_certs envCommitFail 0).ok = false :=
  ((claim_C9.1 envCommitFail 0).2.1) (by decide)

/-! ## Claim C10 — validate_cert input independence -/

/-- C10 (confirmed): the result of `validate_cert` does not depend on the
seed argument, the descriptor's `component_size` or reserved bytes, or the
record's `key_id`: two calls agreeing on the component type, `cert_len`, and
the first `cert_len` certificate bytes return the same result. -/
theorem claim_C10 : ∀ (env : Env) (t sz1 sz2 len : Nat) (r1 r2 k1 k2 : List Nat)
    (f1 f2 : Nat → Nat) (eps1 eps2 : List Nat),
    (∀ k < len, f1 k = f2 k) →
    validate_cert env ⟨sz1, t, r1⟩ ⟨k1, len, f1⟩ eps1 =
      validate_cert env ⟨sz2, t, r2⟩ ⟨k2, len, f2⟩ eps2 := by
  intro env t sz1 sz2 len r1 r2 k1 k2 f1 f2 eps1 eps2 hf
  have hb : cert_bytes ⟨k1, len, f1⟩ = cert_bytes ⟨k2, len, f2⟩ := by
    unfold cert_bytes
    dsimp only
    apply List.map_congr_left
    intro a ha
    rw [hf a (List.mem_range.mp ha)]
  unfold validate_cert
  dsimp only
  rw [hb]

/-- C10 (witness): two calls differing in seed, sizes, reserved bytes,
key id and out-of-range certificate bytes agree. -/
theorem claim_C10_witness :
    validate_cert envBase ⟨0, 129, []⟩ ⟨[], 4, fun k => k⟩ [] =
      validate_cert envBase ⟨7, 129, [1, 2]⟩ ⟨[9], 4, fun k => if k < 4 then k else 99⟩
        [5] :=
  claim_C10 envBase 129 0 7 4 [] [1, 2] [] [9] (fun k => k)
    (fun k => if k < 4 then k else 99) [] [5] (by decide)

end Endorsement
